import Mathlib

/-! GOST public-key method control plane (`gost_pmeth.c`)

A shallow embedding of the control functions, parameter-set resolvers, key
generation and sign/verify callbacks of `gost_pmeth.c`, with the properties
of its specification stated and proved over it.

Conventions of the embedding.

* C `int` values are `Int`; object identifiers (NIDs) and request kinds are
  the integer constants of the OpenSSL headers the file is compiled against
  (`obj_mac.h`, `evp.h`) and of `gost_lcl.h`.
* A nullable pointer is an `Option`; a C string is the list of its bytes in
  front of the terminating NUL, each byte the value of `(unsigned char)c`.
* A function that writes through a pointer returns the written value next to
  its return code; the context is passed in and handed back.
* Functions of other translation units (`OBJ_txt2nid`, the parameter tables,
  the raw sign and verify primitives, the packer and unpacker, ...) are the
  fields of `Ext`; every call of one of them is recorded, in order, in the
  `calls` of the result, and every `GOSTerr` in `errs`.
* A call whose C behaviour is an abort (`OPENSSL_assert`) or is undefined
  (a null or mistyped pointer is dereferenced) yields `none`.
-/

namespace GostPmeth

/-! ## Constants of the headers -/

abbrev NID_undef : Int := 0
abbrev NID_id_GostR3411_94 : Int := 809
abbrev NID_id_GostR3410_2001 : Int := 811
abbrev NID_id_GostR3410_94 : Int := 812
abbrev NID_id_Gost28147_89_MAC : Int := 815
abbrev NID_id_GostR3410_94_CryptoPro_A_ParamSet : Int := 832
abbrev NID_id_GostR3410_94_CryptoPro_B_ParamSet : Int := 833
abbrev NID_id_GostR3410_94_CryptoPro_C_ParamSet : Int := 834
abbrev NID_id_GostR3410_94_CryptoPro_D_ParamSet : Int := 835
abbrev NID_id_GostR3410_94_CryptoPro_XchA_ParamSet : Int := 836
abbrev NID_id_GostR3410_94_CryptoPro_XchB_ParamSet : Int := 837
abbrev NID_id_GostR3410_94_CryptoPro_XchC_ParamSet : Int := 838
abbrev NID_id_GostR3410_2001_TestParamSet : Int := 839
abbrev NID_id_GostR3410_2001_CryptoPro_A_ParamSet : Int := 840
abbrev NID_id_GostR3410_2001_CryptoPro_B_ParamSet : Int := 841
abbrev NID_id_GostR3410_2001_CryptoPro_C_ParamSet : Int := 842
abbrev NID_id_GostR3410_2001_CryptoPro_XchA_ParamSet : Int := 843
abbrev NID_id_GostR3410_2001_CryptoPro_XchB_ParamSet : Int := 844
abbrev NID_gost_mac_12 : Int := 976
abbrev NID_id_GostR3410_2012_256 : Int := 979
abbrev NID_id_GostR3410_2012_512 : Int := 980
abbrev NID_id_GostR3411_2012_256 : Int := 982
abbrev NID_id_GostR3411_2012_512 : Int := 983
abbrev NID_id_tc26_gost_3410_2012_512_paramSetA : Int := 998
abbrev NID_id_tc26_gost_3410_2012_512_paramSetB : Int := 999

abbrev EVP_PKEY_CTRL_MD : Int := 1
abbrev EVP_PKEY_CTRL_PEER_KEY : Int := 2
abbrev EVP_PKEY_CTRL_PKCS7_ENCRYPT : Int := 3
abbrev EVP_PKEY_CTRL_PKCS7_DECRYPT : Int := 4
abbrev EVP_PKEY_CTRL_PKCS7_SIGN : Int := 5
abbrev EVP_PKEY_CTRL_SET_MAC_KEY : Int := 6
abbrev EVP_PKEY_CTRL_DIGESTINIT : Int := 7
abbrev EVP_PKEY_CTRL_SET_IV : Int := 8
abbrev EVP_PKEY_CTRL_CMS_ENCRYPT : Int := 9
abbrev EVP_PKEY_CTRL_CMS_DECRYPT : Int := 10
abbrev EVP_PKEY_CTRL_CMS_SIGN : Int := 11
abbrev EVP_PKEY_CTRL_GET_MD : Int := 13
abbrev EVP_PKEY_ALG_CTRL : Int := 4096
abbrev EVP_PKEY_CTRL_GOST_PARAMSET : Int := EVP_PKEY_ALG_CTRL + 1

/-- The name of the parameter-set string control (`gost_lcl.h`): the bytes
of "paramset". -/
def param_ctrl_string : List Nat := [112, 97, 114, 97, 109, 115, 101, 116]

/-! ## Data model -/

/-- Digest object of the host framework: `type` is what `EVP_MD_type`
reports, `ident` tells apart two digest objects of one type. -/
structure EVP_MD where
  type : Int
  ident : Nat
deriving DecidableEq, Repr

/-- The per-operation state `struct gost_pmeth_data` (`gost_lcl.h`). -/
structure gost_pmeth_data where
  sign_param_nid : Int
  md : Option EVP_MD
  shared_ukm : Option (List Nat)
  peer_key_used : Int
deriving DecidableEq, Repr

/-- Curve group of the host framework, seen through
`EC_GROUP_get_curve_name`. -/
structure EC_GROUP where
  curve_name : Int
deriving DecidableEq, Repr

/-- Elliptic-curve key object: its group (`EC_KEY_get0_group`, absent on a
fresh object) and its key material, which this file never inspects. -/
structure EC_KEY where
  group : Option EC_GROUP
  material : Option Nat
deriving DecidableEq, Repr

/-- Legacy (DSA-style) key object: domain parameters and key material, both
inspected only by code outside this file. -/
structure DSA where
  params : Option Nat
  material : Option Nat
deriving DecidableEq, Repr

/-- What `EVP_PKEY_get0` can point to. -/
inductive KeyData where
  | dsa (d : DSA)
  | ec (e : EC_KEY)
  | mac (key : List Nat)
deriving DecidableEq, Repr

/-- Key handle of the host framework: the family tag (`EVP_PKEY_base_id`)
and the key data pointer (`EVP_PKEY_get0`). -/
structure EVP_PKEY where
  type : Int
  ptr : Option KeyData
deriving DecidableEq, Repr

/-- The operation handle: its method data (`EVP_PKEY_CTX_get_data`) and its
attached key (`EVP_PKEY_CTX_get0_pkey`). -/
structure EVP_PKEY_CTX where
  data : Option gost_pmeth_data
  pkey : Option EVP_PKEY
deriving DecidableEq, Repr

/-- The pair of integers of a signature (`DSA_SIG`). -/
structure DSA_SIG where
  r : Nat
  s : Nat
deriving DecidableEq, Repr

/-- Digest context of the host framework (`EVP_MD_CTX`): the digest it runs
and its running state, which this file never inspects. -/
structure EVP_MD_CTX where
  digest : EVP_MD
  state : Nat
deriving DecidableEq, Repr

/-- Function codes of `GOSTerr` (`e_gost_err.h`). -/
inductive GostFunc where
  | GOST_F_PKEY_GOST_CTRL
  | GOST_F_PKEY_GOST94_CTRL_STR
  | GOST_F_PKEY_GOST_EC_CTRL_STR_256
  | GOST_F_PKEY_GOST_EC_CTRL_STR_512
  | GOST_F_PKEY_GOST94_PARAMGEN
  | GOST_F_PKEY_GOST01_PARAMGEN
  | GOST_F_PKEY_GOST12_PARAMGEN
  | GOST_F_PKEY_GOST_MAC_CTRL
  | GOST_F_PKEY_GOST_MAC_CTRL_STR
  | GOST_F_PKEY_GOST_MAC_KEYGEN
deriving DecidableEq, Repr

/-- Reason codes of `GOSTerr` (`e_gost_err.h`). -/
inductive GostReason where
  | GOST_R_INVALID_DIGEST_TYPE
  | GOST_R_CTRL_CALL_FAILED
  | GOST_R_INVALID_PARAMSET
  | GOST_R_NO_PARAMETERS_SET
  | GOST_R_INVALID_MAC_KEY_LENGTH
  | GOST_R_MAC_KEY_NOT_SET
deriving DecidableEq, Repr

/-- One `GOSTerr(f, r)`. -/
structure GostErr where
  func : GostFunc
  reason : GostReason
deriving DecidableEq, Repr

/-- A call into another translation unit, as recorded in a result. -/
inductive Call where
  | OBJ_txt2nid (value : List Nat)
  | fill_GOST94_params (nid : Int)
  | fill_GOST_EC_params (nid : Int)
  | EVP_PKEY_assign (type : Int)
  | gost_sign_keygen
  | gost_ec_keygen
  | gost_do_sign
  | gost_ec_sign
  | pack_sign_cp (order : Int)
  | unpack_cp_signature (siglen : Nat)
  | gost_do_verify (s : DSA_SIG)
  | gost_ec_verify (s : DSA_SIG)
  | gost94_nid_by_params
  | string_to_hex (value : Option (List Nat))
  | md_ctrl (cmd : Int) (p1 : Int) (key : KeyData)
deriving DecidableEq, Repr

/-- What the packer hands back: its return code, the length it stored in
`*siglen` and the bytes it wrote to `sig`. -/
structure PackOut where
  ret : Int
  siglen : Nat
  sig : List Nat
deriving DecidableEq, Repr

/-- The functions and tables of other translation units that this file
calls. `OPENSSL_malloc` is represented by whether it succeeds for a given
size, `EVP_PKEY_assign` by whether the framework accepts the family tag,
`EVP_PKEY_meth_new` by whether it returns a method table. The raw sign and
verify primitives take the bytes to be signed, their length and the key data;
the packer takes the pair, the half-width and the incoming `*siglen`; the
unpacker takes the signature bytes and their length; a key-filling primitive
hands back what it reports and the key object as it left it.
`gost94_nid_by_params` reads the parameter-set id off a legacy key object;
`string_to_hex` hands back the decoded bytes (`none` for a null result), whose
number is what it stores in `*len`; `md_ctrl` is the keyed-mode control entry
of a digest, given the digest context, the command, the length and the key it
is pointed to, and hands back its return code and the digest context as it
left it. -/
structure Ext where
  OBJ_txt2nid : List Nat → Int
  R3410_paramset : List Int
  R3410_2001_paramset : List Int
  R3410_2012_512_paramset : List Int
  malloc_ok : Int → Bool
  fill_GOST94_params : DSA → Int → Option DSA
  fill_GOST_EC_params : EC_KEY → Int → Option EC_KEY
  assign_ok : Int → Bool
  gost_sign_keygen : DSA → Int × DSA
  gost_ec_keygen : EC_KEY → Int × EC_KEY
  gost_do_sign : List Nat → Nat → Option KeyData → Option DSA_SIG
  gost_ec_sign : List Nat → Nat → Option KeyData → Option DSA_SIG
  pack_sign_cp : DSA_SIG → Int → Nat → PackOut
  unpack_cp_signature : List Nat → Nat → Option DSA_SIG
  gost_do_verify : List Nat → Nat → DSA_SIG → Option KeyData → Int
  gost_ec_verify : List Nat → Nat → DSA_SIG → Option KeyData → Int
  meth_new_ok : Bool
  gost94_nid_by_params : DSA → Int
  string_to_hex : Option (List Nat) → Option (List Nat)
  md_ctrl : EVP_MD_CTX → Int → Int → KeyData → Int × EVP_MD_CTX

/-- The `void *p2` argument of a control request, by what it points to. -/
inductive Arg where
  | null
  | md (d : EVP_MD)
  | md_slot
  | bytes (b : List Nat)
  | md_ctx (m : EVP_MD_CTX)
deriving DecidableEq, Repr

/-- Result of a control request: return code, the context afterwards, the
value stored through `p2` by `EVP_PKEY_CTRL_GET_MD` (`none` when nothing was
stored), the errors raised and the outside calls made. -/
structure CtrlOut where
  ret : Int
  ctx : EVP_PKEY_CTX
  md_out : Option (Option EVP_MD)
  errs : List GostErr
  calls : List Call
deriving DecidableEq, Repr

/-! ## Control functions -/

/-- `EVP_PKEY_base_id` of a key handle. -/
def EVP_PKEY_base_id (key : EVP_PKEY) : Int := key.type

/-- `pkey_gost_ctrl` (lines 88-168). -/
def pkey_gost_ctrl (X : Ext) (ctx : EVP_PKEY_CTX) (type : Int) (p1 : Int)
    (p2 : Arg) : Option CtrlOut :=
  match ctx.data with
  | none => some ⟨0, ctx, none, [], []⟩
  | some pctx =>
    if type = EVP_PKEY_CTRL_MD then
      let pkey_nid : Int :=
        match ctx.pkey with
        | none => NID_undef
        | some key => EVP_PKEY_base_id key
      match p2 with
      | Arg.md d =>
        let stored : CtrlOut :=
          ⟨1, { ctx with data := some { pctx with md := some d } }, none, [], []⟩
        let failed : CtrlOut :=
          ⟨0, ctx, none,
            [⟨GostFunc.GOST_F_PKEY_GOST_CTRL, GostReason.GOST_R_INVALID_DIGEST_TYPE⟩], []⟩
        if d.type = NID_id_GostR3411_94 then
          if pkey_nid = NID_id_GostR3410_2001 ∨ pkey_nid = NID_id_GostR3410_94 then
            some stored
          else some failed
        else if d.type = NID_id_GostR3411_2012_256 then
          if pkey_nid = NID_id_GostR3410_2012_256 then some stored else some failed
        else if d.type = NID_id_GostR3411_2012_512 then
          if pkey_nid = NID_id_GostR3410_2012_512 then some stored else some failed
        else some failed
      | _ => none
    else if type = EVP_PKEY_CTRL_GET_MD then
      match p2 with
      | Arg.md_slot => some ⟨1, ctx, some pctx.md, [], []⟩
      | _ => none
    else if type = EVP_PKEY_CTRL_PKCS7_ENCRYPT ∨ type = EVP_PKEY_CTRL_PKCS7_DECRYPT
        ∨ type = EVP_PKEY_CTRL_PKCS7_SIGN ∨ type = EVP_PKEY_CTRL_DIGESTINIT
        ∨ type = EVP_PKEY_CTRL_CMS_ENCRYPT ∨ type = EVP_PKEY_CTRL_CMS_DECRYPT
        ∨ type = EVP_PKEY_CTRL_CMS_SIGN then
      some ⟨1, ctx, none, [], []⟩
    else if type = EVP_PKEY_CTRL_GOST_PARAMSET then
      some ⟨1, { ctx with data := some { pctx with sign_param_nid := p1 } }, none, [], []⟩
    else if type = EVP_PKEY_CTRL_SET_IV then
      match p2 with
      | Arg.bytes b =>
        if X.malloc_ok p1 then
          if p1.toNat ≤ b.length then
            some ⟨1, { ctx with data := some { pctx with shared_ukm := some (b.take p1.toNat) } },
              none, [], []⟩
          else none
        else
          some ⟨0, { ctx with data := some { pctx with shared_ukm := none } }, none, [], []⟩
      | Arg.null => none
      | _ => none
    else
      let unsupported : CtrlOut :=
        ⟨-2, ctx, none,
          [⟨GostFunc.GOST_F_PKEY_GOST_CTRL, GostReason.GOST_R_CTRL_CALL_FAILED⟩], []⟩
      if type = EVP_PKEY_CTRL_PEER_KEY then
        if p1 = 0 ∨ p1 = 1 then some ⟨1, ctx, none, [], []⟩
        else if p1 = 2 then some ⟨pctx.peer_key_used, ctx, none, [], []⟩
        else if p1 = 3 then
          some ⟨1, { ctx with data := some { pctx with peer_key_used := 1 } }, none, [], []⟩
        else some unsupported
      else some unsupported

/-! ## Parameter-set resolvers -/

/-- `toupper` of `<ctype.h>` in the "C" locale, on an `unsigned char` value:
the letters a-z (97-122) go to A-Z, every other value is left alone. -/
def toupper (c : Nat) : Nat := if 97 ≤ c ∧ c ≤ 122 then c - 32 else c

/-- The table scan of the three resolvers,
`for (; p->nid != NID_undef; p++) if (p->nid == param_nid) break;`
(lines 216-219 and 275-278; lines 322-323 are the same loop written with
`while`): the value of `p->nid` when the loop is left. A table is given by the
`nid` fields of its entries in order; the end of the list stands for the
terminating entry, whose `nid` is `NID_undef`. -/
def scan_paramset : List Int → Int → Int
  | [], _ => NID_undef
  | n :: rest, param_nid =>
    if n = NID_undef then NID_undef
    else if n = param_nid then n
    else scan_paramset rest param_nid

/-- Puts the outside calls `cs`, made before a forwarded request, in front of
that request's own. -/
def after_calls (cs : List Call) (o : Option CtrlOut) : Option CtrlOut :=
  o.map fun r => { r with calls := cs ++ r.calls }

/-- `pkey_gost94_ctrl_str` (lines 170-230). Characters: 65-68 are A-D, 88 is
X. -/
def pkey_gost94_ctrl_str (X : Ext) (ctx : EVP_PKEY_CTX) (type : List Nat)
    (value : Option (List Nat)) : Option CtrlOut :=
  if type = param_ctrl_string then
    match value with
    | none => some ⟨0, ctx, none, [], []⟩
    | some v =>
      if v.length = 1 then
        let c := toupper (v.getD 0 0)
        if c = 65 then
          pkey_gost_ctrl X ctx EVP_PKEY_CTRL_GOST_PARAMSET
            NID_id_GostR3410_94_CryptoPro_A_ParamSet Arg.null
        else if c = 66 then
          pkey_gost_ctrl X ctx EVP_PKEY_CTRL_GOST_PARAMSET
            NID_id_GostR3410_94_CryptoPro_B_ParamSet Arg.null
        else if c = 67 then
          pkey_gost_ctrl X ctx EVP_PKEY_CTRL_GOST_PARAMSET
            NID_id_GostR3410_94_CryptoPro_C_ParamSet Arg.null
        else if c = 68 then
          pkey_gost_ctrl X ctx EVP_PKEY_CTRL_GOST_PARAMSET
            NID_id_GostR3410_94_CryptoPro_D_ParamSet Arg.null
        else some ⟨0, ctx, none, [], []⟩
      else if v.length = 2 ∧ toupper (v.getD 0 0) = 88 then
        let c := toupper (v.getD 1 0)
        if c = 65 then
          pkey_gost_ctrl X ctx EVP_PKEY_CTRL_GOST_PARAMSET
            NID_id_GostR3410_94_CryptoPro_XchA_ParamSet Arg.null
        else if c = 66 then
          pkey_gost_ctrl X ctx EVP_PKEY_CTRL_GOST_PARAMSET
            NID_id_GostR3410_94_CryptoPro_XchB_ParamSet Arg.null
        else if c = 67 then
          pkey_gost_ctrl X ctx EVP_PKEY_CTRL_GOST_PARAMSET
            NID_id_GostR3410_94_CryptoPro_XchC_ParamSet Arg.null
        else some ⟨0, ctx, none, [], []⟩
      else
        let param_nid := X.OBJ_txt2nid v
        if param_nid = NID_undef then
          some ⟨0, ctx, none, [], [Call.OBJ_txt2nid v]⟩
        else if scan_paramset X.R3410_paramset param_nid = NID_undef then
          some ⟨0, ctx, none,
            [⟨GostFunc.GOST_F_PKEY_GOST94_CTRL_STR, GostReason.GOST_R_INVALID_PARAMSET⟩],
            [Call.OBJ_txt2nid v]⟩
        else
          after_calls [Call.OBJ_txt2nid v]
            (pkey_gost_ctrl X ctx EVP_PKEY_CTRL_GOST_PARAMSET param_nid Arg.null)
  else some ⟨-2, ctx, none, [], []⟩

/-- `pkey_gost_ec_ctrl_str_256` (lines 232-290). Characters: 65-67 are A-C,
48 is the digit 0, 88 is X. -/
def pkey_gost_ec_ctrl_str_256 (X : Ext) (ctx : EVP_PKEY_CTX) (type : List Nat)
    (value : Option (List Nat)) : Option CtrlOut :=
  if type = param_ctrl_string then
    match value with
    | none => some ⟨0, ctx, none, [], []⟩
    | some v =>
      if v.length = 1 then
        let c := toupper (v.getD 0 0)
        if c = 65 then
          pkey_gost_ctrl X ctx EVP_PKEY_CTRL_GOST_PARAMSET
            NID_id_GostR3410_2001_CryptoPro_A_ParamSet Arg.null
        else if c = 66 then
          pkey_gost_ctrl X ctx EVP_PKEY_CTRL_GOST_PARAMSET
            NID_id_GostR3410_2001_CryptoPro_B_ParamSet Arg.null
        else if c = 67 then
          pkey_gost_ctrl X ctx EVP_PKEY_CTRL_GOST_PARAMSET
            NID_id_GostR3410_2001_CryptoPro_C_ParamSet Arg.null
        else if c = 48 then
          pkey_gost_ctrl X ctx EVP_PKEY_CTRL_GOST_PARAMSET
            NID_id_GostR3410_2001_TestParamSet Arg.null
        else some ⟨0, ctx, none, [], []⟩
      else if v.length = 2 ∧ toupper (v.getD 0 0) = 88 then
        let c := toupper (v.getD 1 0)
        if c = 65 then
          pkey_gost_ctrl X ctx EVP_PKEY_CTRL_GOST_PARAMSET
            NID_id_GostR3410_2001_CryptoPro_XchA_ParamSet Arg.null
        else if c = 66 then
          pkey_gost_ctrl X ctx EVP_PKEY_CTRL_GOST_PARAMSET
            NID_id_GostR3410_2001_CryptoPro_XchB_ParamSet Arg.null
        else some ⟨0, ctx, none, [], []⟩
      else
        let param_nid := X.OBJ_txt2nid v
        if param_nid = NID_undef then
          some ⟨0, ctx, none, [], [Call.OBJ_txt2nid v]⟩
        else if scan_paramset X.R3410_2001_paramset param_nid = NID_undef then
          some ⟨0, ctx, none,
            [⟨GostFunc.GOST_F_PKEY_GOST_EC_CTRL_STR_256, GostReason.GOST_R_INVALID_PARAMSET⟩],
            [Call.OBJ_txt2nid v]⟩
        else
          after_calls [Call.OBJ_txt2nid v]
            (pkey_gost_ctrl X ctx EVP_PKEY_CTRL_GOST_PARAMSET param_nid Arg.null)
  else some ⟨-2, ctx, none, [], []⟩

/-- `pkey_gost_ec_ctrl_str_512` (lines 292-333). Characters: 65 and 66 are A
and B. -/
def pkey_gost_ec_ctrl_str_512 (X : Ext) (ctx : EVP_PKEY_CTX) (type : List Nat)
    (value : Option (List Nat)) : Option CtrlOut :=
  if type ≠ param_ctrl_string then some ⟨-2, ctx, none, [], []⟩
  else
    match value with
    | none => some ⟨0, ctx, none, [], []⟩
    | some v =>
      if v.length = 1 then
        let c := toupper (v.getD 0 0)
        if c = 65 then
          pkey_gost_ctrl X ctx EVP_PKEY_CTRL_GOST_PARAMSET
            NID_id_tc26_gost_3410_2012_512_paramSetA Arg.null
        else if c = 66 then
          pkey_gost_ctrl X ctx EVP_PKEY_CTRL_GOST_PARAMSET
            NID_id_tc26_gost_3410_2012_512_paramSetB Arg.null
        else some ⟨0, ctx, none, [], []⟩
      else
        let param_nid := X.OBJ_txt2nid v
        if param_nid = NID_undef then
          some ⟨0, ctx, none, [], [Call.OBJ_txt2nid v]⟩
        else if scan_paramset X.R3410_2012_512_paramset param_nid = NID_undef then
          some ⟨0, ctx, none,
            [⟨GostFunc.GOST_F_PKEY_GOST_EC_CTRL_STR_512, GostReason.GOST_R_INVALID_PARAMSET⟩],
            [Call.OBJ_txt2nid v]⟩
        else
          after_calls [Call.OBJ_txt2nid v]
            (pkey_gost_ctrl X ctx EVP_PKEY_CTRL_GOST_PARAMSET param_nid Arg.null)

/-! ## Key generation -/

/-- Result of a paramgen or keygen callback: return code, the key handle
afterwards, the errors raised and the outside calls made. -/
structure GenOut where
  ret : Int
  pkey : EVP_PKEY
  errs : List GostErr
  calls : List Call
deriving DecidableEq, Repr

/-- `EC_KEY_new()`: a fresh key object without group or key material. -/
def EC_KEY_new : EC_KEY := ⟨none, none⟩

/-- `DSA_new()`: a fresh legacy key object. -/
def DSA_new : DSA := ⟨none, none⟩

/-- `EVP_PKEY_assign` of the host framework: when the framework accepts the
family tag the handle takes the tag and the key data and the call returns 1;
otherwise it returns 0. -/
def EVP_PKEY_assign (X : Ext) (pkey : EVP_PKEY) (type : Int) (key : KeyData) :
    Int × EVP_PKEY :=
  if X.assign_ok type then (1, ⟨type, some key⟩) else (0, pkey)

/-- `pkey_gost94_paramgen` (lines 342-357). -/
def pkey_gost94_paramgen (X : Ext) (ctx : EVP_PKEY_CTX) (pkey : EVP_PKEY) : GenOut :=
  let no_params : GenOut :=
    ⟨0, pkey, [⟨GostFunc.GOST_F_PKEY_GOST94_PARAMGEN, GostReason.GOST_R_NO_PARAMETERS_SET⟩], []⟩
  match ctx.data with
  | none => no_params
  | some data =>
    if data.sign_param_nid = NID_undef then no_params
    else
      match X.fill_GOST94_params DSA_new data.sign_param_nid with
      | none => ⟨0, pkey, [], [Call.fill_GOST94_params data.sign_param_nid]⟩
      | some dsa =>
        let a := EVP_PKEY_assign X pkey NID_id_GostR3410_94 (KeyData.dsa dsa)
        ⟨if a.1 = 0 then 0 else 1, a.2, [],
          [Call.fill_GOST94_params data.sign_param_nid,
           Call.EVP_PKEY_assign NID_id_GostR3410_94]⟩

/-- `pkey_gost2001_paramgen` (lines 359-376). -/
def pkey_gost2001_paramgen (X : Ext) (ctx : EVP_PKEY_CTX) (pkey : EVP_PKEY) : GenOut :=
  let no_params : GenOut :=
    ⟨0, pkey, [⟨GostFunc.GOST_F_PKEY_GOST01_PARAMGEN, GostReason.GOST_R_NO_PARAMETERS_SET⟩], []⟩
  match ctx.data with
  | none => no_params
  | some data =>
    if data.sign_param_nid = NID_undef then no_params
    else
      match X.fill_GOST_EC_params EC_KEY_new data.sign_param_nid with
      | none => ⟨0, pkey, [], [Call.fill_GOST_EC_params data.sign_param_nid]⟩
      | some ec =>
        let a := EVP_PKEY_assign X pkey NID_id_GostR3410_2001 (KeyData.ec ec)
        ⟨if a.1 = 0 then 0 else 1, a.2, [],
          [Call.fill_GOST_EC_params data.sign_param_nid,
           Call.EVP_PKEY_assign NID_id_GostR3410_2001]⟩

/-- `pkey_gost2012_paramgen` (lines 378-420). -/
def pkey_gost2012_paramgen (X : Ext) (ctx : EVP_PKEY_CTX) (pkey : EVP_PKEY) : GenOut :=
  let no_params : GenOut :=
    ⟨0, pkey, [⟨GostFunc.GOST_F_PKEY_GOST12_PARAMGEN, GostReason.GOST_R_NO_PARAMETERS_SET⟩], []⟩
  match ctx.data with
  | none => no_params
  | some data =>
    if data.sign_param_nid = NID_undef then no_params
    else
      match X.fill_GOST_EC_params EC_KEY_new data.sign_param_nid with
      | none => ⟨0, pkey, [], [Call.fill_GOST_EC_params data.sign_param_nid]⟩
      | some ec =>
        if data.sign_param_nid = NID_id_tc26_gost_3410_2012_512_paramSetA
            ∨ data.sign_param_nid = NID_id_tc26_gost_3410_2012_512_paramSetB then
          let a := EVP_PKEY_assign X pkey NID_id_GostR3410_2012_512 (KeyData.ec ec)
          ⟨if a.1 ≠ 0 then 1 else 0, a.2, [],
            [Call.fill_GOST_EC_params data.sign_param_nid,
             Call.EVP_PKEY_assign NID_id_GostR3410_2012_512]⟩
        else if data.sign_param_nid = NID_id_GostR3410_2001_CryptoPro_A_ParamSet
            ∨ data.sign_param_nid = NID_id_GostR3410_2001_CryptoPro_B_ParamSet
            ∨ data.sign_param_nid = NID_id_GostR3410_2001_CryptoPro_C_ParamSet
            ∨ data.sign_param_nid = NID_id_GostR3410_2001_CryptoPro_XchA_ParamSet
            ∨ data.sign_param_nid = NID_id_GostR3410_2001_CryptoPro_XchB_ParamSet
            ∨ data.sign_param_nid = NID_id_GostR3410_2001_TestParamSet then
          let a := EVP_PKEY_assign X pkey NID_id_GostR3410_2012_256 (KeyData.ec ec)
          ⟨if a.1 ≠ 0 then 1 else 0, a.2, [],
            [Call.fill_GOST_EC_params data.sign_param_nid,
             Call.EVP_PKEY_assign NID_id_GostR3410_2012_256]⟩
        else ⟨0, pkey, [], [Call.fill_GOST_EC_params data.sign_param_nid]⟩

/-- `pkey_gost94cp_keygen` (lines 424-432): after a successful paramgen the
key data of the handle is the legacy object just assigned, which
`gost_sign_keygen` fills in place; what the primitive reports is dropped. -/
def pkey_gost94cp_keygen (X : Ext) (ctx : EVP_PKEY_CTX) (pkey : EVP_PKEY) :
    Option GenOut :=
  let g := pkey_gost94_paramgen X ctx pkey
  if g.ret = 0 then some ⟨0, g.pkey, g.errs, g.calls⟩
  else
    match g.pkey.ptr with
    | some (KeyData.dsa dsa) =>
      some ⟨1, { g.pkey with ptr := some (KeyData.dsa (X.gost_sign_keygen dsa).2) }, g.errs,
        g.calls ++ [Call.gost_sign_keygen]⟩
    | _ => none

/-- `pkey_gost2001cp_keygen` (lines 435-443). -/
def pkey_gost2001cp_keygen (X : Ext) (ctx : EVP_PKEY_CTX) (pkey : EVP_PKEY) :
    Option GenOut :=
  let g := pkey_gost2001_paramgen X ctx pkey
  if g.ret = 0 then some ⟨0, g.pkey, g.errs, g.calls⟩
  else
    match g.pkey.ptr with
    | some (KeyData.ec ec) =>
      some ⟨1, { g.pkey with ptr := some (KeyData.ec (X.gost_ec_keygen ec).2) }, g.errs,
        g.calls ++ [Call.gost_ec_keygen]⟩
    | _ => none

/-- `pkey_gost2012cp_keygen` (lines 446-453). -/
def pkey_gost2012cp_keygen (X : Ext) (ctx : EVP_PKEY_CTX) (pkey : EVP_PKEY) :
    Option GenOut :=
  let g := pkey_gost2012_paramgen X ctx pkey
  if g.ret = 0 then some ⟨0, g.pkey, g.errs, g.calls⟩
  else
    match g.pkey.ptr with
    | some (KeyData.ec ec) =>
      some ⟨1, { g.pkey with ptr := some (KeyData.ec (X.gost_ec_keygen ec).2) }, g.errs,
        g.calls ++ [Call.gost_ec_keygen]⟩
    | _ => none

/-! ## Sign and verify callbacks -/

/-- Result of a sign callback: return code, the value of `*siglen` afterwards
(`none` when the length slot is null), the bytes written to `sig` (`none`
when nothing was written), the context afterwards and the outside calls
made. -/
structure SignOut where
  ret : Int
  siglen : Option Nat
  sig : Option (List Nat)
  ctx : EVP_PKEY_CTX
  calls : List Call
deriving DecidableEq, Repr

/-- Result of a verify callback: return code, the context afterwards and the
outside calls made. -/
structure VerifyOut where
  ret : Int
  ctx : EVP_PKEY_CTX
  calls : List Call
deriving DecidableEq, Repr

/-- `pkey_gost94_cp_sign` (lines 457-474). `sig` is the output buffer (its
contents on entry), `siglen` the length slot (its value on entry). With an
output buffer and no attached key the C code reads through a null handle. -/
def pkey_gost94_cp_sign (X : Ext) (ctx : EVP_PKEY_CTX) (sig : Option (List Nat))
    (siglen : Option Nat) (tbs : List Nat) (tbs_len : Nat) : Option SignOut :=
  match siglen with
  | none => some ⟨0, none, none, ctx, []⟩
  | some len =>
    match sig with
    | none => some ⟨1, some 64, none, ctx, []⟩
    | some _ =>
      match ctx.pkey with
      | none => none
      | some pkey =>
        match X.gost_do_sign tbs tbs_len pkey.ptr with
        | none => some ⟨0, some len, none, ctx, [Call.gost_do_sign]⟩
        | some unpacked_sig =>
          let p := X.pack_sign_cp unpacked_sig 32 len
          some ⟨p.ret, some p.siglen, some p.sig, ctx,
            [Call.gost_do_sign, Call.pack_sign_cp 32]⟩

/-- Lines 501-509 of `pkey_gost_ec_cp_sign`: what follows the switch on the
key family, which has set `order`. -/
def pkey_gost_ec_cp_sign_order (X : Ext) (ctx : EVP_PKEY_CTX) (pkey : EVP_PKEY)
    (order : Int) (sig : Option (List Nat)) (len : Nat) (tbs : List Nat)
    (tbs_len : Nat) : SignOut :=
  match sig with
  | none => ⟨1, some order.toNat, none, ctx, []⟩
  | some _ =>
    match X.gost_ec_sign tbs tbs_len pkey.ptr with
    | none => ⟨0, some len, none, ctx, [Call.gost_ec_sign]⟩
    | some unpacked_sig =>
      let p := X.pack_sign_cp unpacked_sig (order / 2) len
      ⟨p.ret, some p.siglen, some p.sig, ctx, [Call.gost_ec_sign, Call.pack_sign_cp (order / 2)]⟩

/-- `pkey_gost_ec_cp_sign` (lines 476-510). -/
def pkey_gost_ec_cp_sign (X : Ext) (ctx : EVP_PKEY_CTX) (sig : Option (List Nat))
    (siglen : Option Nat) (tbs : List Nat) (tbs_len : Nat) : Option SignOut :=
  match siglen with
  | none => some ⟨0, none, none, ctx, []⟩
  | some len =>
    match ctx.pkey with
    | none => some ⟨0, some len, none, ctx, []⟩
    | some pkey =>
      if EVP_PKEY_base_id pkey = NID_id_GostR3410_2001
          ∨ EVP_PKEY_base_id pkey = NID_id_GostR3410_2012_256 then
        some (pkey_gost_ec_cp_sign_order X ctx pkey 64 sig len tbs tbs_len)
      else if EVP_PKEY_base_id pkey = NID_id_GostR3410_2012_512 then
        some (pkey_gost_ec_cp_sign_order X ctx pkey 128 sig len tbs tbs_len)
      else some ⟨0, some len, none, ctx, []⟩

/-- `pkey_gost94_cp_verify` (lines 514-527). -/
def pkey_gost94_cp_verify (X : Ext) (ctx : EVP_PKEY_CTX) (sig : Option (List Nat))
    (siglen : Nat) (tbs : List Nat) (tbs_len : Nat) : VerifyOut :=
  match sig with
  | none => ⟨0, ctx, []⟩
  | some b =>
    match X.unpack_cp_signature b siglen with
    | none => ⟨0, ctx, [Call.unpack_cp_signature siglen]⟩
    | some s =>
      match ctx.pkey with
      | some pub_key =>
        ⟨X.gost_do_verify tbs tbs_len s pub_key.ptr, ctx,
          [Call.unpack_cp_signature siglen, Call.gost_do_verify s]⟩
      | none => ⟨0, ctx, [Call.unpack_cp_signature siglen]⟩

/-- `pkey_gost_ec_cp_verify` (lines 529-549). -/
def pkey_gost_ec_cp_verify (X : Ext) (ctx : EVP_PKEY_CTX) (sig : Option (List Nat))
    (siglen : Nat) (tbs : List Nat) (tbs_len : Nat) : VerifyOut :=
  match sig with
  | none => ⟨0, ctx, []⟩
  | some b =>
    match X.unpack_cp_signature b siglen with
    | none => ⟨0, ctx, [Call.unpack_cp_signature siglen]⟩
    | some s =>
      match ctx.pkey with
      | some pub_key =>
        ⟨X.gost_ec_verify tbs tbs_len s pub_key.ptr, ctx,
          [Call.unpack_cp_signature siglen, Call.gost_ec_verify s]⟩
      | none => ⟨0, ctx, [Call.unpack_cp_signature siglen]⟩

/-! ## Registration -/

/-- The callbacks a method table can hold: the static functions of this file
and the encrypt, decrypt and derive callbacks of its sibling files. -/
inductive Fn where
  | pkey_gost_init
  | pkey_gost_copy
  | pkey_gost_cleanup
  | pkey_gost_ctrl
  | pkey_gost94_ctrl_str
  | pkey_gost_ec_ctrl_str_256
  | pkey_gost_ec_ctrl_str_512
  | pkey_gost_paramgen_init
  | pkey_gost94_paramgen
  | pkey_gost2001_paramgen
  | pkey_gost2012_paramgen
  | pkey_gost94cp_keygen
  | pkey_gost2001cp_keygen
  | pkey_gost2012cp_keygen
  | pkey_gost94_cp_sign
  | pkey_gost_ec_cp_sign
  | pkey_gost94_cp_verify
  | pkey_gost_ec_cp_verify
  | pkey_gost_encrypt_init
  | pkey_GOST94cp_encrypt
  | pkey_GOST94cp_decrypt
  | pkey_GOST_ECcp_encrypt
  | pkey_GOST_ECcp_decrypt
  | pkey_gost_derive_init
  | pkey_gost94_derive
  | pkey_gost_ec_derive
  | pkey_gost_mac_init
  | pkey_gost_mac_cleanup
  | pkey_gost_mac_copy
  | pkey_gost_mac_ctrl
  | pkey_gost_mac_ctrl_str
  | pkey_gost_mac_keygen
  | pkey_gost_mac_keygen_12
  | pkey_gost_mac_signctx_init
  | pkey_gost_mac_signctx
deriving DecidableEq, Repr

/-- The method table of the host framework (`EVP_PKEY_METHOD`), a null
callback being `none`. -/
structure EVP_PKEY_METHOD where
  pkey_id : Int
  flags : Int
  init : Option Fn
  copy : Option Fn
  cleanup : Option Fn
  paramgen_init : Option Fn
  paramgen : Option Fn
  keygen_init : Option Fn
  keygen : Option Fn
  sign_init : Option Fn
  sign : Option Fn
  verify_init : Option Fn
  verify : Option Fn
  signctx_init : Option Fn
  signctx : Option Fn
  encrypt_init : Option Fn
  encrypt : Option Fn
  decrypt_init : Option Fn
  decrypt : Option Fn
  derive_init : Option Fn
  derive : Option Fn
  ctrl : Option Fn
  ctrl_str : Option Fn
deriving DecidableEq, Repr

/-- `EVP_PKEY_meth_new(id, flags)` when it succeeds: a table without
callbacks. -/
def EVP_PKEY_meth_new (id flags : Int) : EVP_PKEY_METHOD :=
  { pkey_id := id, flags := flags, init := none, copy := none, cleanup := none,
    paramgen_init := none, paramgen := none, keygen_init := none, keygen := none,
    sign_init := none, sign := none, verify_init := none, verify := none,
    signctx_init := none, signctx := none, encrypt_init := none, encrypt := none,
    decrypt_init := none, decrypt := none, derive_init := none, derive := none,
    ctrl := none, ctrl_str := none }

/-- Lines 840-848 of `register_pmeth_gost`: the lifecycle callbacks shared by
the four asymmetric families. -/
def register_common (m : EVP_PKEY_METHOD) : EVP_PKEY_METHOD :=
  { m with init := some Fn.pkey_gost_init, cleanup := some Fn.pkey_gost_cleanup,
           copy := some Fn.pkey_gost_copy }

/-- `register_pmeth_gost` (lines 743-849): the return code and the value left
in `*pmeth`. -/
def register_pmeth_gost (X : Ext) (id : Int) (flags : Int) : Int × Option EVP_PKEY_METHOD :=
  if X.meth_new_ok = false then (0, none)
  else
    let m := EVP_PKEY_meth_new id flags
    if id = NID_id_GostR3410_94 then
      (1, some (register_common { m with
        ctrl := some Fn.pkey_gost_ctrl, ctrl_str := some Fn.pkey_gost94_ctrl_str,
        keygen_init := none, keygen := some Fn.pkey_gost94cp_keygen,
        sign_init := none, sign := some Fn.pkey_gost94_cp_sign,
        verify_init := none, verify := some Fn.pkey_gost94_cp_verify,
        encrypt_init := some Fn.pkey_gost_encrypt_init,
        encrypt := some Fn.pkey_GOST94cp_encrypt,
        decrypt_init := none, decrypt := some Fn.pkey_GOST94cp_decrypt,
        derive_init := some Fn.pkey_gost_derive_init, derive := some Fn.pkey_gost94_derive,
        paramgen_init := some Fn.pkey_gost_paramgen_init,
        paramgen := some Fn.pkey_gost94_paramgen }))
    else if id = NID_id_GostR3410_2001 then
      (1, some (register_common { m with
        ctrl := some Fn.pkey_gost_ctrl, ctrl_str := some Fn.pkey_gost_ec_ctrl_str_256,
        sign_init := none, sign := some Fn.pkey_gost_ec_cp_sign,
        verify_init := none, verify := some Fn.pkey_gost_ec_cp_verify,
        keygen_init := none, keygen := some Fn.pkey_gost2001cp_keygen,
        encrypt_init := some Fn.pkey_gost_encrypt_init,
        encrypt := some Fn.pkey_GOST_ECcp_encrypt,
        decrypt_init := none, decrypt := some Fn.pkey_GOST_ECcp_decrypt,
        derive_init := some Fn.pkey_gost_derive_init, derive := some Fn.pkey_gost_ec_derive,
        paramgen_init := some Fn.pkey_gost_paramgen_init,
        paramgen := some Fn.pkey_gost2001_paramgen }))
    else if id = NID_id_GostR3410_2012_256 then
      (1, some (register_common { m with
        ctrl := some Fn.pkey_gost_ctrl, ctrl_str := some Fn.pkey_gost_ec_ctrl_str_256,
        sign_init := none, sign := some Fn.pkey_gost_ec_cp_sign,
        verify_init := none, verify := some Fn.pkey_gost_ec_cp_verify,
        keygen_init := none, keygen := some Fn.pkey_gost2012cp_keygen,
        encrypt_init := some Fn.pkey_gost_encrypt_init,
        encrypt := some Fn.pkey_GOST_ECcp_encrypt,
        decrypt_init := none, decrypt := some Fn.pkey_GOST_ECcp_decrypt,
        derive_init := some Fn.pkey_gost_derive_init, derive := some Fn.pkey_gost_ec_derive,
        paramgen_init := some Fn.pkey_gost_paramgen_init,
        paramgen := some Fn.pkey_gost2012_paramgen }))
    else if id = NID_id_GostR3410_2012_512 then
      (1, some (register_common { m with
        ctrl := some Fn.pkey_gost_ctrl, ctrl_str := some Fn.pkey_gost_ec_ctrl_str_512,
        sign_init := none, sign := some Fn.pkey_gost_ec_cp_sign,
        verify_init := none, verify := some Fn.pkey_gost_ec_cp_verify,
        keygen_init := none, keygen := some Fn.pkey_gost2012cp_keygen,
        encrypt_init := some Fn.pkey_gost_encrypt_init,
        encrypt := some Fn.pkey_GOST_ECcp_encrypt,
        decrypt_init := none, decrypt := some Fn.pkey_GOST_ECcp_decrypt,
        derive_init := some Fn.pkey_gost_derive_init, derive := some Fn.pkey_gost_ec_derive,
        paramgen_init := some Fn.pkey_gost_paramgen_init,
        paramgen := some Fn.pkey_gost2012_paramgen }))
    else if id = NID_id_Gost28147_89_MAC then
      (1, some { m with
        ctrl := some Fn.pkey_gost_mac_ctrl, ctrl_str := some Fn.pkey_gost_mac_ctrl_str,
        signctx_init := some Fn.pkey_gost_mac_signctx_init,
        signctx := some Fn.pkey_gost_mac_signctx,
        keygen_init := none, keygen := some Fn.pkey_gost_mac_keygen,
        init := some Fn.pkey_gost_mac_init, cleanup := some Fn.pkey_gost_mac_cleanup,
        copy := some Fn.pkey_gost_mac_copy })
    else if id = NID_gost_mac_12 then
      (1, some { m with
        ctrl := some Fn.pkey_gost_mac_ctrl, ctrl_str := some Fn.pkey_gost_mac_ctrl_str,
        signctx_init := some Fn.pkey_gost_mac_signctx_init,
        signctx := some Fn.pkey_gost_mac_signctx,
        keygen_init := none, keygen := some Fn.pkey_gost_mac_keygen_12,
        init := some Fn.pkey_gost_mac_init, cleanup := some Fn.pkey_gost_mac_cleanup,
        copy := some Fn.pkey_gost_mac_copy })
    else (0, some m)

/-- Calling the paramgen callback of a method table: the function the pointer
names, `none` for a null pointer or one that is no paramgen function. -/
def call_paramgen (X : Ext) (f : Option Fn) (ctx : EVP_PKEY_CTX) (pkey : EVP_PKEY) :
    Option GenOut :=
  match f with
  | some Fn.pkey_gost94_paramgen => some (pkey_gost94_paramgen X ctx pkey)
  | some Fn.pkey_gost2001_paramgen => some (pkey_gost2001_paramgen X ctx pkey)
  | some Fn.pkey_gost2012_paramgen => some (pkey_gost2012_paramgen X ctx pkey)
  | _ => none

/-- Calling the keygen callback of a method table, for the three asymmetric
keygen functions. -/
def call_keygen (X : Ext) (f : Option Fn) (ctx : EVP_PKEY_CTX) (pkey : EVP_PKEY) :
    Option GenOut :=
  match f with
  | some Fn.pkey_gost94cp_keygen => pkey_gost94cp_keygen X ctx pkey
  | some Fn.pkey_gost2001cp_keygen => pkey_gost2001cp_keygen X ctx pkey
  | some Fn.pkey_gost2012cp_keygen => pkey_gost2012cp_keygen X ctx pkey
  | _ => none

/-- Running the paramgen callback that `register_pmeth_gost` installs for the
family `id`, then, when it returned 1, the keygen callback installed for the
same family on the same context and the key handle paramgen produced. -/
def paramgen_then_keygen (X : Ext) (id flags : Int) (ctx : EVP_PKEY_CTX)
    (pkey : EVP_PKEY) : Option GenOut :=
  match register_pmeth_gost X id flags with
  | (_, none) => none
  | (_, some m) =>
    match call_paramgen X m.paramgen ctx pkey with
    | none => none
    | some g => if g.ret = 1 then call_keygen X m.keygen ctx g.pkey else none

/-! ## Context lifecycle -/

/-- The size of `struct gost_pmeth_data` (an `int`, two pointers and an `int`
on a platform with 8-byte pointers); it only tells the allocator how much is
asked for. -/
abbrev sizeof_gost_pmeth_data : Int := 32

/-- Result of `pkey_gost_init`: return code, the operation handle afterwards
and the outside calls made. -/
structure InitOut where
  ret : Int
  ctx : EVP_PKEY_CTX
  calls : List Call
deriving DecidableEq, Repr

/-- `pkey_gost_init` (lines 23-55). The state is allocated and zeroed; with an
attached key that carries key data the parameter-set id is read off the key,
per family. A key whose data is not of the kind its family tag announces makes
the C code read an object of the wrong type. -/
def pkey_gost_init (X : Ext) (ctx : EVP_PKEY_CTX) : Option InitOut :=
  if X.malloc_ok sizeof_gost_pmeth_data = false then some ⟨0, ctx, []⟩
  else
    let data : gost_pmeth_data := ⟨0, none, none, 0⟩
    match ctx.pkey with
    | none => some ⟨1, { ctx with data := some data }, []⟩
    | some pkey =>
      match pkey.ptr with
      | none => some ⟨1, { ctx with data := some data }, []⟩
      | some kd =>
        if EVP_PKEY_base_id pkey = NID_id_GostR3410_94 then
          match kd with
          | KeyData.dsa d =>
            let filled : gost_pmeth_data :=
              { data with sign_param_nid := X.gost94_nid_by_params d }
            some ⟨1, { ctx with data := some filled }, [Call.gost94_nid_by_params]⟩
          | _ => none
        else if EVP_PKEY_base_id pkey = NID_id_GostR3410_2001
            ∨ EVP_PKEY_base_id pkey = NID_id_GostR3410_2012_256
            ∨ EVP_PKEY_base_id pkey = NID_id_GostR3410_2012_512 then
          match kd with
          | KeyData.ec e =>
            match e.group with
            | some group =>
              let filled : gost_pmeth_data :=
                { data with sign_param_nid := group.curve_name }
              some ⟨1, { ctx with data := some filled }, []⟩
            | none => some ⟨0, ctx, []⟩
          | _ => none
        else some ⟨0, ctx, []⟩

/-- Result of `pkey_gost_copy`: return code, the destination and the source
handle afterwards, and the outside calls made. -/
structure CopyOut where
  ret : Int
  dst : EVP_PKEY_CTX
  src : EVP_PKEY_CTX
  calls : List Call
deriving DecidableEq, Repr

/-- `pkey_gost_copy` (lines 58-74), for two distinct handles. -/
def pkey_gost_copy (X : Ext) (dst src : EVP_PKEY_CTX) : Option CopyOut :=
  match pkey_gost_init X dst with
  | none => none
  | some i =>
    if i.ret = 0 then some ⟨0, i.ctx, src, i.calls⟩
    else
      match src.data, i.ctx.data with
      | some src_data, some _ =>
        let copied : gost_pmeth_data := src_data
        let dst_data : gost_pmeth_data :=
          if src_data.shared_ukm ≠ none then { copied with shared_ukm := none } else copied
        some ⟨1, { i.ctx with data := some dst_data }, src, i.calls⟩
      | _, _ => some ⟨0, i.ctx, src, i.calls⟩

/-! ## The MAC method -/

abbrev EVP_MD_CTRL_ALG_CTRL : Int := 4096
abbrev EVP_MD_CTRL_SET_KEY : Int := EVP_MD_CTRL_ALG_CTRL + 4

/-- The name of the raw-key string control (`gost_lcl.h`): the bytes of
"key". -/
def key_ctrl_string : List Nat := [107, 101, 121]

/-- The name of the hex-key string control (`gost_lcl.h`): the bytes of
"hexkey". -/
def hexkey_ctrl_string : List Nat := [104, 101, 120, 107, 101, 121]

/-- The per-operation state of a MAC method, `struct gost_mac_pmeth_data`
(`gost_lcl.h`): `key` is the array of 32 bytes. -/
structure gost_mac_pmeth_data where
  key_set : Int
  md : Option EVP_MD
  key : List Nat
deriving DecidableEq, Repr

/-- The operation handle of a MAC method: its method data and its attached
key. -/
structure EVP_PKEY_MAC_CTX where
  data : Option gost_mac_pmeth_data
  pkey : Option EVP_PKEY
deriving DecidableEq, Repr

/-- Result of a MAC control request: return code, the handle afterwards, the
value stored through `p2` by `EVP_PKEY_CTRL_GET_MD`, the digest context as
the keyed-mode control left it (`none` when that control was not called), the
errors raised and the outside calls made. -/
structure MacCtrlOut where
  ret : Int
  ctx : EVP_PKEY_MAC_CTX
  md_out : Option (Option EVP_MD)
  mctx_out : Option EVP_MD_CTX
  errs : List GostErr
  calls : List Call
deriving DecidableEq, Repr

/-- `pkey_gost_mac_ctrl` (lines 598-658). The state pointer is not checked:
a branch that reads or writes through it has no defined behaviour without
state. -/
def pkey_gost_mac_ctrl (X : Ext) (ctx : EVP_PKEY_MAC_CTX) (type : Int) (p1 : Int)
    (p2 : Arg) : Option MacCtrlOut :=
  if type = EVP_PKEY_CTRL_MD then
    match p2 with
    | Arg.md d =>
      if d.type ≠ NID_id_Gost28147_89_MAC ∧ d.type ≠ NID_gost_mac_12 then
        some ⟨0, ctx, none, none,
          [⟨GostFunc.GOST_F_PKEY_GOST_MAC_CTRL, GostReason.GOST_R_INVALID_DIGEST_TYPE⟩], []⟩
      else
        match ctx.data with
        | none => none
        | some data =>
          some ⟨1, { ctx with data := some { data with md := some d } }, none, none, [], []⟩
    | _ => none
  else if type = EVP_PKEY_CTRL_GET_MD then
    match ctx.data, p2 with
    | some data, Arg.md_slot => some ⟨1, ctx, some data.md, none, [], []⟩
    | _, _ => none
  else if type = EVP_PKEY_CTRL_PKCS7_ENCRYPT ∨ type = EVP_PKEY_CTRL_PKCS7_DECRYPT
      ∨ type = EVP_PKEY_CTRL_PKCS7_SIGN then
    some ⟨1, ctx, none, none, [], []⟩
  else if type = EVP_PKEY_CTRL_SET_MAC_KEY then
    if p1 ≠ 32 then
      some ⟨0, ctx, none, none,
        [⟨GostFunc.GOST_F_PKEY_GOST_MAC_CTRL, GostReason.GOST_R_INVALID_MAC_KEY_LENGTH⟩], []⟩
    else
      match ctx.data, p2 with
      | some data, Arg.bytes b =>
        if 32 ≤ b.length then
          some ⟨1, { ctx with data := some { data with key := b.take 32, key_set := 1 } },
            none, none, [], []⟩
        else none
      | _, _ => none
  else if type = EVP_PKEY_CTRL_DIGESTINIT then
    match ctx.data with
    | none => none
    | some data =>
      let not_set : MacCtrlOut :=
        ⟨0, ctx, none, none,
          [⟨GostFunc.GOST_F_PKEY_GOST_MAC_CTRL, GostReason.GOST_R_MAC_KEY_NOT_SET⟩], []⟩
      let inject (key : KeyData) : Option MacCtrlOut :=
        match p2 with
        | Arg.md_ctx mctx =>
          let r := X.md_ctrl mctx EVP_MD_CTRL_SET_KEY 32 key
          some ⟨r.1, ctx, none, some r.2, [], [Call.md_ctrl EVP_MD_CTRL_SET_KEY 32 key]⟩
        | _ => none
      if data.key_set = 0 then
        match ctx.pkey with
        | none => some not_set
        | some pkey =>
          match pkey.ptr with
          | none => some not_set
          | some key => inject key
      else inject (KeyData.mac data.key)
  else some ⟨-2, ctx, none, none, [], []⟩

/-- Puts the outside calls `cs`, made before a forwarded MAC request, in front
of that request's own. -/
def mac_after_calls (cs : List Call) (o : Option MacCtrlOut) : Option MacCtrlOut :=
  o.map fun r => { r with calls := cs ++ r.calls }

/-- `pkey_gost_mac_ctrl_str` (lines 660-688). A null `value` under the raw-key
name is handed to `strlen`. -/
def pkey_gost_mac_ctrl_str (X : Ext) (ctx : EVP_PKEY_MAC_CTX) (type : List Nat)
    (value : Option (List Nat)) : Option MacCtrlOut :=
  let bad_length (cs : List Call) : MacCtrlOut :=
    ⟨0, ctx, none, none,
      [⟨GostFunc.GOST_F_PKEY_GOST_MAC_CTRL_STR, GostReason.GOST_R_INVALID_MAC_KEY_LENGTH⟩], cs⟩
  if type = key_ctrl_string then
    match value with
    | none => none
    | some v =>
      if v.length ≠ 32 then some (bad_length [])
      else pkey_gost_mac_ctrl X ctx EVP_PKEY_CTRL_SET_MAC_KEY 32 (Arg.bytes v)
  else if type = hexkey_ctrl_string then
    match X.string_to_hex value with
    | none => some (bad_length [Call.string_to_hex value])
    | some keybuf =>
      if keybuf.length ≠ 32 then some (bad_length [Call.string_to_hex value])
      else
        mac_after_calls [Call.string_to_hex value]
          (pkey_gost_mac_ctrl X ctx EVP_PKEY_CTRL_SET_MAC_KEY 32 (Arg.bytes keybuf))
  else some ⟨-2, ctx, none, none, [], []⟩

/-- Result of a MAC keygen callback: return code, the key handle and the
operation handle afterwards, the errors raised and the outside calls made. -/
structure MacGenOut where
  ret : Int
  pkey : EVP_PKEY
  ctx : EVP_PKEY_MAC_CTX
  errs : List GostErr
  calls : List Call
deriving DecidableEq, Repr

/-- `pkey_gost_mac_keygen_base` (lines 690-705): `keydata` is a fresh buffer
of 32 bytes filled from the key array of the state; what `EVP_PKEY_assign`
returns is dropped. -/
def pkey_gost_mac_keygen_base (X : Ext) (ctx : EVP_PKEY_MAC_CTX) (pkey : EVP_PKEY)
    (mac_nid : Int) : MacGenOut :=
  let not_set : MacGenOut :=
    ⟨0, pkey, ctx,
      [⟨GostFunc.GOST_F_PKEY_GOST_MAC_KEYGEN, GostReason.GOST_R_MAC_KEY_NOT_SET⟩], []⟩
  match ctx.data with
  | none => not_set
  | some data =>
    if data.key_set = 0 then not_set
    else if X.malloc_ok 32 = false then ⟨0, pkey, ctx, [], []⟩
    else
      let keydata : List Nat := data.key
      let a := EVP_PKEY_assign X pkey mac_nid (KeyData.mac keydata)
      ⟨1, a.2, ctx, [], [Call.EVP_PKEY_assign mac_nid]⟩

/-- `pkey_gost_mac_keygen_12` (lines 707-710). -/
def pkey_gost_mac_keygen_12 (X : Ext) (ctx : EVP_PKEY_MAC_CTX) (pkey : EVP_PKEY) :
    MacGenOut :=
  pkey_gost_mac_keygen_base X ctx pkey NID_gost_mac_12

/-- `pkey_gost_mac_keygen` (lines 712-715). -/
def pkey_gost_mac_keygen (X : Ext) (ctx : EVP_PKEY_MAC_CTX) (pkey : EVP_PKEY) :
    MacGenOut :=
  pkey_gost_mac_keygen_base X ctx pkey NID_id_Gost28147_89_MAC

/-! ## Sequences of requests -/

/-- A request the host framework can make on an operation handle of an
asymmetric family: a numeric control, or a string control through one of the
three resolvers. -/
inductive Request where
  | ctrl (type : Int) (p1 : Int) (p2 : Arg)
  | ctrl_str_94 (type : List Nat) (value : Option (List Nat))
  | ctrl_str_256 (type : List Nat) (value : Option (List Nat))
  | ctrl_str_512 (type : List Nat) (value : Option (List Nat))
deriving DecidableEq, Repr

/-- One request carried out on a handle. -/
def apply_request (X : Ext) (ctx : EVP_PKEY_CTX) : Request → Option CtrlOut
  | Request.ctrl type p1 p2 => pkey_gost_ctrl X ctx type p1 p2
  | Request.ctrl_str_94 type value => pkey_gost94_ctrl_str X ctx type value
  | Request.ctrl_str_256 type value => pkey_gost_ec_ctrl_str_256 X ctx type value
  | Request.ctrl_str_512 type value => pkey_gost_ec_ctrl_str_512 X ctx type value

/-- A sequence of requests carried out one after the other, each in an
environment of its own: the handle after every step, in order. The run ends
with the sequence, or at a request on which the C code aborts. -/
def run_requests (ctx : EVP_PKEY_CTX) : List (Ext × Request) → List EVP_PKEY_CTX
  | [] => []
  | step :: rest =>
    match apply_request step.1 ctx step.2 with
    | none => []
    | some o => o.ctx :: run_requests o.ctx rest

/-! ## The fixed-width signature encoding -/

/-- The `w` big-endian bytes of `n`, zero-padded on the left. -/
def store_be (w n : Nat) : List Nat :=
  (List.range w).map fun i => n / 256 ^ (w - 1 - i) % 256

/-- The unsigned integer a list of big-endian bytes stands for. -/
def load_be (bs : List Nat) : Nat :=
  bs.foldl (fun acc b => acc * 256 + b) 0

/-- Modelled from the spec: the packer `pack_sign_cp`, which this file calls
and does not define. The pair is written as fixed-width big-endian bytes,
second component first, each zero-padded to the half-width; the call fails
when the caller's buffer (the incoming `*siglen`) is smaller than required. -/
def pack_cp (sig : DSA_SIG) (order : Int) (cap : Nat) : PackOut :=
  if cap < 2 * order.toNat then ⟨0, cap, []⟩
  else ⟨1, 2 * order.toNat, store_be order.toNat sig.s ++ store_be order.toNat sig.r⟩

/-- Modelled from the spec: the unpacker `unpack_cp_signature`, which this
file calls and does not define, for a family of half-width `w`. It fails for
any byte length other than exactly `2 * w`, and otherwise reads the second
component from the first `w` bytes and the first component from the next
`w`. -/
def unpack_cp (w : Nat) (sig : List Nat) (siglen : Nat) : Option DSA_SIG :=
  if siglen = 2 * w then
    some ⟨load_be ((sig.drop w).take w), load_be (sig.take w)⟩
  else none

/-! ## An environment for concrete evaluations -/

/-- The bytes of "1.2.643.2.2.32.2", the dotted identifier of the legacy
CryptoPro A parameter set. -/
def oid_94_CryptoPro_A : List Nat :=
  [49, 46, 50, 46, 54, 52, 51, 46, 50, 46, 50, 46, 51, 50, 46, 50]

/-- The bytes of "1.2.643.2.2.35.1", the dotted identifier of the 2001
CryptoPro A parameter set. -/
def oid_2001_CryptoPro_A : List Nat :=
  [49, 46, 50, 46, 54, 52, 51, 46, 50, 46, 50, 46, 51, 53, 46, 49]

/-- The bytes of "1.2.643.7.1.2.1.2.1", the dotted identifier of the 512-bit
parameter set A. -/
def oid_2012_512_paramSetA : List Nat :=
  [49, 46, 50, 46, 54, 52, 51, 46, 55, 46, 49, 46, 50, 46, 49, 46, 50, 46, 49]

/-- The bytes of "md5", a name of the registry (id 4) that is no parameter
set. -/
def name_md5 : List Nat := [109, 100, 53]

/-- The bytes of a text of 64 characters 0, the hexadecimal form of 32 zero
bytes. -/
def hex_64_zeros : List Nat := List.replicate 64 48

/-- A sample environment: a registry that knows four names, the three
parameter-set tables with the ids the resolvers map short codes to, an
allocator that serves every positive size, materialization that succeeds for
the ids of the tables, a framework that accepts every family tag, sign
primitives that produce the pair (1, 2), verify primitives that accept
everything, and the packer and unpacker of half-width 32 as the
specification describes them; a legacy key object carries its parameter-set
id as its parameters; the hex decoder knows the text "01" (one byte) and the
text of 64 zeros (32 bytes); the keyed-mode control of a digest accepts every
key. -/
def sample_ext : Ext where
  OBJ_txt2nid := fun v =>
    if v = oid_94_CryptoPro_A then NID_id_GostR3410_94_CryptoPro_A_ParamSet
    else if v = oid_2001_CryptoPro_A then NID_id_GostR3410_2001_CryptoPro_A_ParamSet
    else if v = oid_2012_512_paramSetA then NID_id_tc26_gost_3410_2012_512_paramSetA
    else if v = name_md5 then 4
    else NID_undef
  R3410_paramset := [832, 833, 834, 835, 836, 837, 838]
  R3410_2001_paramset := [839, 840, 841, 842, 843, 844]
  R3410_2012_512_paramset := [998, 999]
  malloc_ok := fun n => decide (0 < n)
  fill_GOST94_params := fun d nid =>
    if nid ∈ [832, 833, 834, 835, 836, 837, 838] then some { d with params := some nid.toNat }
    else none
  fill_GOST_EC_params := fun e nid =>
    if nid ∈ [839, 840, 841, 842, 843, 844, 998, 999] then some { e with group := some ⟨nid⟩ }
    else none
  assign_ok := fun _ => true
  gost_sign_keygen := fun d => (1, { d with material := some 7 })
  gost_ec_keygen := fun e => (1, { e with material := some 7 })
  gost_do_sign := fun _ _ _ => some ⟨1, 2⟩
  gost_ec_sign := fun _ _ _ => some ⟨1, 2⟩
  pack_sign_cp := pack_cp
  unpack_cp_signature := unpack_cp 32
  gost_do_verify := fun _ _ _ _ => 1
  gost_ec_verify := fun _ _ _ _ => 1
  meth_new_ok := true
  gost94_nid_by_params := fun d =>
    match d.params with
    | some n => n
    | none => NID_undef
  string_to_hex := fun v =>
    match v with
    | some [48, 49] => some [1]
    | some b => if b = hex_64_zeros then some (List.replicate 32 0) else none
    | none => none
  md_ctrl := fun m _ _ _ => (1, { m with state := m.state + 1 })

/-- A context with freshly zeroed state and no attached key. -/
def sample_ctx : EVP_PKEY_CTX := ⟨some ⟨0, none, none, 0⟩, none⟩

/-- A context without attached key whose parameter-set id is `nid`. -/
def sample_ctx_with (nid : Int) : EVP_PKEY_CTX := ⟨some ⟨nid, none, none, 0⟩, none⟩

/-- An empty key handle. -/
def sample_pkey : EVP_PKEY := ⟨NID_undef, none⟩

/-- A context whose attached key is a curve key of family `type`. -/
def sample_ctx_key (type : Int) : EVP_PKEY_CTX :=
  ⟨some ⟨0, none, none, 0⟩, some ⟨type, some (KeyData.ec ⟨some ⟨840⟩, some 7⟩)⟩⟩

/-- The sample environment with the unpacker of half-width 64. -/
def sample_ext_64 : Ext := { sample_ext with unpack_cp_signature := unpack_cp 64 }

/-- The sample environment with an allocator that has no memory left. -/
def sample_ext_no_memory : Ext := { sample_ext with malloc_ok := fun _ => false }

/-- The sample environment with a framework that refuses every family tag. -/
def sample_ext_no_tag : Ext := { sample_ext with assign_ok := fun _ => false }

/-- A fresh operation handle: no state, no attached key. -/
def fresh_ctx : EVP_PKEY_CTX := ⟨none, none⟩

/-- A context with state, without attached key, whose peer-key flag is 1. -/
def sample_ctx_used : EVP_PKEY_CTX := ⟨some ⟨0, none, none, 1⟩, none⟩

/-- A sequence of seven requests: a shared secret of three bytes; the legacy
digest, refused for want of a key; a shared secret when no memory is left; the
peer-key notify; the short code A under the 512 resolver; a request kind that
is not recognised; and the parameter-set request with the unset id. -/
def sample_steps : List (Ext × Request) :=
  [(sample_ext, Request.ctrl EVP_PKEY_CTRL_SET_IV 3 (Arg.bytes [1, 2, 3])),
   (sample_ext, Request.ctrl EVP_PKEY_CTRL_MD 0 (Arg.md ⟨NID_id_GostR3411_94, 1⟩)),
   (sample_ext_no_memory, Request.ctrl EVP_PKEY_CTRL_SET_IV 3 (Arg.bytes [1, 2, 3])),
   (sample_ext, Request.ctrl EVP_PKEY_CTRL_PEER_KEY 3 Arg.null),
   (sample_ext, Request.ctrl_str_512 param_ctrl_string (some [65])),
   (sample_ext, Request.ctrl 99 0 Arg.null),
   (sample_ext, Request.ctrl EVP_PKEY_CTRL_GOST_PARAMSET NID_undef Arg.null)]

/-- A MAC handle with freshly zeroed state: no digest, no key set. -/
def sample_mac_ctx : EVP_PKEY_MAC_CTX := ⟨some ⟨0, none, List.replicate 32 0⟩, none⟩

/-- A MAC handle whose key is set to 32 bytes of value 5. -/
def sample_mac_ctx_keyed : EVP_PKEY_MAC_CTX := ⟨some ⟨1, none, List.replicate 32 5⟩, none⟩

/-- A destination handle for a copy: no state yet, and an attached 2001 key on
the curve of id 840. -/
def sample_dst : EVP_PKEY_CTX :=
  ⟨none, some ⟨NID_id_GostR3410_2001, some (KeyData.ec ⟨some ⟨840⟩, some 7⟩)⟩⟩

/-- A source handle for a copy: the legacy digest, the 2001 exchange A
parameter set, a shared secret of three bytes and the peer-key flag set. -/
def sample_src : EVP_PKEY_CTX :=
  ⟨some ⟨NID_id_GostR3410_2001_CryptoPro_XchA_ParamSet, some ⟨NID_id_GostR3411_94, 1⟩,
    some [9, 8, 7], 1⟩, none⟩

/-! ## Theorems -/

/-- On an existing context the parameter-set request stores the given id and
returns 1. -/
theorem pkey_gost_ctrl_paramset (X : Ext) (pctx : gost_pmeth_data)
    (key : Option EVP_PKEY) (n : Int) (a : Arg) :
    pkey_gost_ctrl X ⟨some pctx, key⟩ EVP_PKEY_CTRL_GOST_PARAMSET n a
      = some ⟨1, ⟨some ⟨n, pctx.md, pctx.shared_ukm, pctx.peer_key_used⟩, key⟩,
          none, [], []⟩ := by
  simp +decide [pkey_gost_ctrl]

/-- An upper-case letter is the `toupper` of itself and of its lower-case
form only. -/
theorem toupper_eq_letter (c u : Nat) (h1 : 65 ≤ u) (h2 : u ≤ 90) :
    toupper c = u ↔ c = u ∨ c = u + 32 := by
  unfold toupper
  split_ifs <;> omega

/-- The digit 0 is the `toupper` of itself only. -/
theorem toupper_eq_zero_digit (c : Nat) : toupper c = 48 ↔ c = 48 := by
  unfold toupper
  split_ifs <;> omega

/-- The table scan stops at the terminator exactly when the id sought, which
is not the undefined id, does not occur in front of the terminator. -/
theorem scan_paramset_eq_undef (tbl : List Int) (n : Int) (hn : n ≠ NID_undef) :
    scan_paramset tbl n = NID_undef ↔ n ∉ tbl.takeWhile (fun m => decide (m ≠ NID_undef)) := by
  induction tbl with
  | nil => simp [scan_paramset]
  | cons m rest ih =>
    unfold scan_paramset
    by_cases hm : m = NID_undef
    · simp [hm]
    · by_cases hmn : m = n
      · simp [hm, hmn, hn, List.takeWhile_cons]
      · have hnm : ¬ n = m := fun h => hmn h.symm
        simp [hm, hmn, hnm, ih, List.takeWhile_cons]

/-- One-character values under the resolver of the 2001 and 2012-256
families. -/
theorem ec_ctrl_str_256_one_char (X : Ext) (pctx : gost_pmeth_data)
    (key : Option EVP_PKEY) (c : Nat) :
    pkey_gost_ec_ctrl_str_256 X ⟨some pctx, key⟩ param_ctrl_string (some [c]) =
      if c = 65 ∨ c = 97 then
        some ⟨1, ⟨some ⟨NID_id_GostR3410_2001_CryptoPro_A_ParamSet, pctx.md, pctx.shared_ukm,
          pctx.peer_key_used⟩, key⟩, none, [], []⟩
      else if c = 66 ∨ c = 98 then
        some ⟨1, ⟨some ⟨NID_id_GostR3410_2001_CryptoPro_B_ParamSet, pctx.md, pctx.shared_ukm,
          pctx.peer_key_used⟩, key⟩, none, [], []⟩
      else if c = 67 ∨ c = 99 then
        some ⟨1, ⟨some ⟨NID_id_GostR3410_2001_CryptoPro_C_ParamSet, pctx.md, pctx.shared_ukm,
          pctx.peer_key_used⟩, key⟩, none, [], []⟩
      else if c = 48 then
        some ⟨1, ⟨some ⟨NID_id_GostR3410_2001_TestParamSet, pctx.md, pctx.shared_ukm,
          pctx.peer_key_used⟩, key⟩, none, [], []⟩
      else some ⟨0, ⟨some pctx, key⟩, none, [], []⟩ := by
  simp only [pkey_gost_ec_ctrl_str_256, pkey_gost_ctrl_paramset, if_true,
    List.length_singleton, List.getD_cons_zero, toupper_eq_letter c 65 (by omega) (by omega),
    toupper_eq_letter c 66 (by omega) (by omega), toupper_eq_letter c 67 (by omega) (by omega),
    toupper_eq_zero_digit]

/-- A forwarded parameter-set request on an existing context, with the
registry lookup that came before it on record. -/
theorem after_calls_paramset (X : Ext) (pctx : gost_pmeth_data)
    (key : Option EVP_PKEY) (n : Int) (cs : List Call) :
    after_calls cs (pkey_gost_ctrl X ⟨some pctx, key⟩ EVP_PKEY_CTRL_GOST_PARAMSET n Arg.null)
      = some ⟨1, ⟨some ⟨n, pctx.md, pctx.shared_ukm, pctx.peer_key_used⟩, key⟩,
          none, [], cs⟩ := by
  simp [after_calls, pkey_gost_ctrl_paramset]

/-- The parameter-set request returns 0 on a handle without state and 1 on
one with state, never anything else. -/
theorem pkey_gost_ctrl_paramset_ret (X : Ext) (ctx : EVP_PKEY_CTX) (n : Int) :
    ∃ o, pkey_gost_ctrl X ctx EVP_PKEY_CTRL_GOST_PARAMSET n Arg.null = some o
      ∧ (o.ret = 0 ∨ o.ret = 1) := by
  rcases ctx with ⟨data, key⟩
  cases data with
  | none => exact ⟨⟨0, ⟨none, key⟩, none, [], []⟩, by simp [pkey_gost_ctrl], Or.inl rfl⟩
  | some pctx => exact ⟨_, pkey_gost_ctrl_paramset X pctx key n Arg.null, Or.inr rfl⟩

/-- A forwarded parameter-set request returns 0 or 1 also with the registry
lookup on record. -/
theorem after_calls_paramset_ret (X : Ext) (ctx : EVP_PKEY_CTX) (n : Int)
    (cs : List Call) :
    ∃ o, after_calls cs (pkey_gost_ctrl X ctx EVP_PKEY_CTRL_GOST_PARAMSET n Arg.null) = some o
      ∧ (o.ret = 0 ∨ o.ret = 1) := by
  obtain ⟨o, ho, hr⟩ := pkey_gost_ctrl_paramset_ret X ctx n
  exact ⟨{ o with calls := cs ++ o.calls }, by simp [after_calls, ho], hr⟩

/-- Without state the parameter-set request returns 0 and leaves the handle
alone. -/
theorem pkey_gost_ctrl_no_state (X : Ext) (key : Option EVP_PKEY) (type p1 : Int)
    (p2 : Arg) :
    pkey_gost_ctrl X ⟨none, key⟩ type p1 p2 = some ⟨0, ⟨none, key⟩, none, [], []⟩ := by
  simp [pkey_gost_ctrl]

/-- Whenever `pkey_gost_init` returns, it returns 0 and hands the handle back
as it was, or it returns 1 and has installed a state on the handle, whose
attached key is unchanged. -/
theorem pkey_gost_init_ret (X : Ext) (c : EVP_PKEY_CTX) (i : InitOut)
    (hi : pkey_gost_init X c = some i) :
    (i.ret = 0 ∧ i.ctx = c)
      ∨ (i.ret = 1 ∧ i.ctx.pkey = c.pkey ∧ ∃ d, i.ctx.data = some d) := by
  unfold pkey_gost_init at hi
  split_ifs at hi with hm
  · simp only [Option.some.injEq] at hi
    rw [← hi]
    exact Or.inl ⟨rfl, rfl⟩
  · split at hi
    · simp only [Option.some.injEq] at hi
      rw [← hi]
      exact Or.inr ⟨rfl, rfl, _, rfl⟩
    · split at hi
      · simp only [Option.some.injEq] at hi
        rw [← hi]
        exact Or.inr ⟨rfl, rfl, _, rfl⟩
      · split_ifs at hi
        · split at hi
          · simp only [Option.some.injEq] at hi
            rw [← hi]
            exact Or.inr ⟨rfl, rfl, _, rfl⟩
          · exact absurd hi (by simp)
        · split at hi
          · split at hi
            · simp only [Option.some.injEq] at hi
              rw [← hi]
              exact Or.inr ⟨rfl, rfl, _, rfl⟩
            · simp only [Option.some.injEq] at hi
              rw [← hi]
              exact Or.inl ⟨rfl, rfl⟩
          · exact absurd hi (by simp)
        · simp only [Option.some.injEq] at hi
          rw [← hi]
          exact Or.inl ⟨rfl, rfl⟩

/-- The state a copy leaves on the destination: the source's, without shared
secret. -/
theorem copied_state (sd : gost_pmeth_data) :
    (if sd.shared_ukm ≠ none then ({ sd with shared_ukm := none } : gost_pmeth_data) else sd)
      = ⟨sd.sign_param_nid, sd.md, none, sd.peer_key_used⟩ := by
  rcases sd with ⟨n, m, u, f⟩
  cases u <;> simp

/-- What a numeric control leaves of an existing state: the state with its
peer-key flag as before, or, for the peer-key request with sub-request 3 only,
with the flag 1. -/
theorem pkey_gost_ctrl_flag (X : Ext) (pctx : gost_pmeth_data) (key : Option EVP_PKEY)
    (type p1 : Int) (p2 : Arg) (o : CtrlOut)
    (h : pkey_gost_ctrl X ⟨some pctx, key⟩ type p1 p2 = some o) :
    ∃ d, o.ctx.data = some d
      ∧ (d.peer_key_used = pctx.peer_key_used
        ∨ (type = EVP_PKEY_CTRL_PEER_KEY ∧ p1 = 3 ∧ d.peer_key_used = 1)) := by
  simp only [pkey_gost_ctrl] at h
  split_ifs at h
  all_goals first
    | (simp only [Option.some.injEq] at h
       rw [← h]
       exact ⟨_, rfl, Or.inl rfl⟩)
    | (simp only [Option.some.injEq] at h
       rw [← h]
       exact ⟨_, rfl, Or.inr ⟨by assumption, by assumption, rfl⟩⟩)
    | (split at h
       all_goals first
         | (simp only [Option.some.injEq] at h
            rw [← h]
            exact ⟨_, rfl, Or.inl rfl⟩)
         | (split_ifs at h
            all_goals
              simp only [Option.some.injEq] at h
              rw [← h]
              exact ⟨_, rfl, Or.inl rfl⟩)
         | exact Option.noConfusion h)

/-- What a parameter-set string control leaves of an existing state: every
field but the parameter-set id as before. -/
theorem ctrl_str_keeps_flag (X : Ext) (pctx : gost_pmeth_data) (key : Option EVP_PKEY)
    (type : List Nat) (value : Option (List Nat)) (o : CtrlOut)
    (h : pkey_gost94_ctrl_str X ⟨some pctx, key⟩ type value = some o
      ∨ pkey_gost_ec_ctrl_str_256 X ⟨some pctx, key⟩ type value = some o
      ∨ pkey_gost_ec_ctrl_str_512 X ⟨some pctx, key⟩ type value = some o) :
    ∃ n, o.ctx = ⟨some ⟨n, pctx.md, pctx.shared_ukm, pctx.peer_key_used⟩, key⟩ := by
  rcases h with h | h | h
  · unfold pkey_gost94_ctrl_str at h
    cases value <;> simp only [pkey_gost_ctrl_paramset, after_calls, Option.map_some'] at h <;>
      split_ifs at h <;> simp only [Option.some.injEq] at h <;> rw [← h] <;>
      exact ⟨_, rfl⟩
  · unfold pkey_gost_ec_ctrl_str_256 at h
    cases value <;> simp only [pkey_gost_ctrl_paramset, after_calls, Option.map_some'] at h <;>
      split_ifs at h <;> simp only [Option.some.injEq] at h <;> rw [← h] <;>
      exact ⟨_, rfl⟩
  · unfold pkey_gost_ec_ctrl_str_512 at h
    cases value <;> simp only [pkey_gost_ctrl_paramset, after_calls, Option.map_some'] at h <;>
      split_ifs at h <;> simp only [Option.some.injEq] at h <;> rw [← h] <;>
      exact ⟨_, rfl⟩

/-- The big-endian bytes of a number are as many as asked for. -/
theorem store_be_length (w n : Nat) : (store_be w n).length = w := by
  simp [store_be]

/-- Each of the big-endian bytes of a number is below 256. -/
theorem store_be_lt (w n b : Nat) (h : b ∈ store_be w n) : b < 256 := by
  simp only [store_be, List.mem_map, List.mem_range] at h
  obtain ⟨i, _, hi⟩ := h
  rw [← hi]
  exact Nat.mod_lt _ (by decide)

/-- One byte more: the bytes of the quotient by 256, then the remainder. -/
theorem store_be_succ (w n : Nat) :
    store_be (w + 1) n = store_be w (n / 256) ++ [n % 256] := by
  unfold store_be
  rw [List.range_succ, List.map_append]
  congr 1
  · apply List.map_congr_left
    intro i hi
    have hi2 : i < w := List.mem_range.mp hi
    have he : w + 1 - 1 - i = (w - 1 - i) + 1 := by omega
    rw [he, pow_succ, Nat.div_div_eq_div_mul, Nat.mul_comm]
  · simp

/-- Reading a list of bytes with one more byte at the end. -/
theorem load_be_append_singleton (bs : List Nat) (b : Nat) :
    load_be (bs ++ [b]) = load_be bs * 256 + b := by
  simp [load_be, List.foldl_append]

/-- Reading the `w` big-endian bytes of a number below `256 ^ w` gives the
number back. -/
theorem load_be_store_be (w : Nat) : ∀ n : Nat, n < 256 ^ w → load_be (store_be w n) = n := by
  induction w with
  | zero =>
    intro n hn
    have h0 : n = 0 := by simpa using hn
    subst h0
    rfl
  | succ w ih =>
    intro n hn
    have hq : n / 256 < 256 ^ w := by
      apply Nat.div_lt_of_lt_mul
      rw [pow_succ] at hn
      rw [Nat.mul_comm]
      exact hn
    rw [store_be_succ, load_be_append_singleton, ih _ hq]
    exact Nat.div_add_mod' n 256

/-- C1: on an existing context, `pkey_gost_ctrl` with `EVP_PKEY_CTRL_MD` and a
digest `d` returns 1 exactly when `d` is the legacy digest and the attached key
is of family 94 or 2001, or `d` is the 2012 256-bit digest and the key is of
family 2012-256, or `d` is the 2012 512-bit digest and the key is of family
2012-512; in every other case (any other digest, no attached key) it returns
0; and on return 1 the stored digest reference is `d`. -/
theorem pkey_gost_ctrl_md_iff (X : Ext) (pctx : gost_pmeth_data)
    (key : Option EVP_PKEY) (p1 : Int) (d : EVP_MD) :
    ∃ out, pkey_gost_ctrl X ⟨some pctx, key⟩ EVP_PKEY_CTRL_MD p1 (Arg.md d) = some out
      ∧ (out.ret = 1 ↔
          ((d.type = NID_id_GostR3411_94 ∧ ∃ k, key = some k
              ∧ (k.type = NID_id_GostR3410_94 ∨ k.type = NID_id_GostR3410_2001))
            ∨ (d.type = NID_id_GostR3411_2012_256 ∧ ∃ k, key = some k
              ∧ k.type = NID_id_GostR3410_2012_256)
            ∨ (d.type = NID_id_GostR3411_2012_512 ∧ ∃ k, key = some k
              ∧ k.type = NID_id_GostR3410_2012_512)))
      ∧ (out.ret = 1 ∨ out.ret = 0)
      ∧ (out.ret = 1 → out.ctx.data.map gost_pmeth_data.md = some (some d)) := by
  cases key with
  | none =>
    simp only [pkey_gost_ctrl, EVP_PKEY_base_id]
    split_ifs <;> simp_all
  | some k =>
    simp only [pkey_gost_ctrl, EVP_PKEY_base_id]
    split_ifs <;> simp_all
    omega

/-- C2: on an existing context, a failed `EVP_PKEY_CTRL_MD` request (return 0)
leaves the whole context as it was, so that a following `EVP_PKEY_CTRL_GET_MD`
returns 1 and writes back the digest reference stored before (unset if none
was); a successful one changes the digest field only, and a following
`EVP_PKEY_CTRL_GET_MD` writes back the new digest. -/
theorem pkey_gost_ctrl_md_frame (X : Ext) (pctx : gost_pmeth_data)
    (key : Option EVP_PKEY) (p1 q1 : Int) (d : EVP_MD) :
    ∃ out, pkey_gost_ctrl X ⟨some pctx, key⟩ EVP_PKEY_CTRL_MD p1 (Arg.md d) = some out
      ∧ (out.ret = 0 ∨ out.ret = 1)
      ∧ (out.ret = 0 →
          out.ctx = ⟨some pctx, key⟩
          ∧ pkey_gost_ctrl X out.ctx EVP_PKEY_CTRL_GET_MD q1 Arg.md_slot
              = some ⟨1, ⟨some pctx, key⟩, some pctx.md, [], []⟩)
      ∧ (out.ret = 1 →
          out.ctx = ⟨some ⟨pctx.sign_param_nid, some d, pctx.shared_ukm,
                            pctx.peer_key_used⟩, key⟩
          ∧ pkey_gost_ctrl X out.ctx EVP_PKEY_CTRL_GET_MD q1 Arg.md_slot
              = some ⟨1, out.ctx, some (some d), [], []⟩) := by
  simp only [pkey_gost_ctrl]
  split_ifs <;> simp_all

/-- C7: under `pkey_gost94_ctrl_str` with the parameter-set control name and
an existing context, a one-character value A, B, C or D (either case) returns
1 and sets the parameter-set id to the legacy CryptoPro A, B, C or D id; a
two-character value X (either case) followed by A, B or C (either case)
returns 1 and sets it to the legacy exchange A, B or C id; every other
one-character value and every other two-character value starting with X or x
returns 0 and leaves the context unchanged. -/
theorem pkey_gost94_ctrl_str_short (X : Ext) (pctx : gost_pmeth_data)
    (key : Option EVP_PKEY) (x c : Nat) :
    (pkey_gost94_ctrl_str X ⟨some pctx, key⟩ param_ctrl_string (some [c]) =
      if c = 65 ∨ c = 97 then
        some ⟨1, ⟨some ⟨NID_id_GostR3410_94_CryptoPro_A_ParamSet, pctx.md, pctx.shared_ukm,
          pctx.peer_key_used⟩, key⟩, none, [], []⟩
      else if c = 66 ∨ c = 98 then
        some ⟨1, ⟨some ⟨NID_id_GostR3410_94_CryptoPro_B_ParamSet, pctx.md, pctx.shared_ukm,
          pctx.peer_key_used⟩, key⟩, none, [], []⟩
      else if c = 67 ∨ c = 99 then
        some ⟨1, ⟨some ⟨NID_id_GostR3410_94_CryptoPro_C_ParamSet, pctx.md, pctx.shared_ukm,
          pctx.peer_key_used⟩, key⟩, none, [], []⟩
      else if c = 68 ∨ c = 100 then
        some ⟨1, ⟨some ⟨NID_id_GostR3410_94_CryptoPro_D_ParamSet, pctx.md, pctx.shared_ukm,
          pctx.peer_key_used⟩, key⟩, none, [], []⟩
      else some ⟨0, ⟨some pctx, key⟩, none, [], []⟩)
    ∧ (x = 88 ∨ x = 120 →
      pkey_gost94_ctrl_str X ⟨some pctx, key⟩ param_ctrl_string (some [x, c]) =
        if c = 65 ∨ c = 97 then
          some ⟨1, ⟨some ⟨NID_id_GostR3410_94_CryptoPro_XchA_ParamSet, pctx.md,
            pctx.shared_ukm, pctx.peer_key_used⟩, key⟩, none, [], []⟩
        else if c = 66 ∨ c = 98 then
          some ⟨1, ⟨some ⟨NID_id_GostR3410_94_CryptoPro_XchB_ParamSet, pctx.md,
            pctx.shared_ukm, pctx.peer_key_used⟩, key⟩, none, [], []⟩
        else if c = 67 ∨ c = 99 then
          some ⟨1, ⟨some ⟨NID_id_GostR3410_94_CryptoPro_XchC_ParamSet, pctx.md,
            pctx.shared_ukm, pctx.peer_key_used⟩, key⟩, none, [], []⟩
        else some ⟨0, ⟨some pctx, key⟩, none, [], []⟩) := by
  constructor
  · simp only [pkey_gost94_ctrl_str, pkey_gost_ctrl_paramset, if_true, List.length_singleton,
      List.getD_cons_zero, toupper_eq_letter c 65 (by omega) (by omega),
      toupper_eq_letter c 66 (by omega) (by omega), toupper_eq_letter c 67 (by omega) (by omega),
      toupper_eq_letter c 68 (by omega) (by omega)]
  · intro hx
    have hx2 : toupper x = 88 := (toupper_eq_letter x 88 (by omega) (by omega)).2 hx
    simp [pkey_gost94_ctrl_str, pkey_gost_ctrl_paramset, hx2,
      toupper_eq_letter c 65 (by omega) (by omega),
      toupper_eq_letter c 66 (by omega) (by omega), toupper_eq_letter c 67 (by omega) (by omega)]

/-- C8: under `pkey_gost_ec_ctrl_str_256` with the parameter-set control name
and an existing context, the one-character values A, B, C (either case) and 0
return 1 and set the parameter-set id to the 2001 CryptoPro A, B, C and test
ids; the two-character values X (either case) followed by A or B (either case)
return 1 and set it to the 2001 exchange A and B ids; every other
one-character value and every other two-character value starting with X or x
returns 0, leaves the context unchanged and makes no registry lookup. -/
theorem pkey_gost_ec_ctrl_str_256_short (X : Ext) (pctx : gost_pmeth_data)
    (key : Option EVP_PKEY) (x c : Nat) :
    (pkey_gost_ec_ctrl_str_256 X ⟨some pctx, key⟩ param_ctrl_string (some [c]) =
      if c = 65 ∨ c = 97 then
        some ⟨1, ⟨some ⟨NID_id_GostR3410_2001_CryptoPro_A_ParamSet, pctx.md, pctx.shared_ukm,
          pctx.peer_key_used⟩, key⟩, none, [], []⟩
      else if c = 66 ∨ c = 98 then
        some ⟨1, ⟨some ⟨NID_id_GostR3410_2001_CryptoPro_B_ParamSet, pctx.md, pctx.shared_ukm,
          pctx.peer_key_used⟩, key⟩, none, [], []⟩
      else if c = 67 ∨ c = 99 then
        some ⟨1, ⟨some ⟨NID_id_GostR3410_2001_CryptoPro_C_ParamSet, pctx.md, pctx.shared_ukm,
          pctx.peer_key_used⟩, key⟩, none, [], []⟩
      else if c = 48 then
        some ⟨1, ⟨some ⟨NID_id_GostR3410_2001_TestParamSet, pctx.md, pctx.shared_ukm,
          pctx.peer_key_used⟩, key⟩, none, [], []⟩
      else some ⟨0, ⟨some pctx, key⟩, none, [], []⟩)
    ∧ (x = 88 ∨ x = 120 →
      pkey_gost_ec_ctrl_str_256 X ⟨some pctx, key⟩ param_ctrl_string (some [x, c]) =
        if c = 65 ∨ c = 97 then
          some ⟨1, ⟨some ⟨NID_id_GostR3410_2001_CryptoPro_XchA_ParamSet, pctx.md,
            pctx.shared_ukm, pctx.peer_key_used⟩, key⟩, none, [], []⟩
        else if c = 66 ∨ c = 98 then
          some ⟨1, ⟨some ⟨NID_id_GostR3410_2001_CryptoPro_XchB_ParamSet, pctx.md,
            pctx.shared_ukm, pctx.peer_key_used⟩, key⟩, none, [], []⟩
        else some ⟨0, ⟨some pctx, key⟩, none, [], []⟩) := by
  constructor
  · exact ec_ctrl_str_256_one_char X pctx key c
  · intro hx
    have hx2 : toupper x = 88 := (toupper_eq_letter x 88 (by omega) (by omega)).2 hx
    simp [pkey_gost_ec_ctrl_str_256, pkey_gost_ctrl_paramset, hx2,
      toupper_eq_letter c 65 (by omega) (by omega),
      toupper_eq_letter c 66 (by omega) (by omega)]

/-- C9, as the code has it: with the parameter-set control name and an existing
context, the resolver of the 2001 and 2012-256 families resolves each of the
single characters A, B, C (either case) and 0 directly, returning 1 and storing
the 2001 CryptoPro A, B, C or test id without a registry lookup; the resolver
of the 2012-512 family resolves only A and B (either case) directly, storing
the 512-bit parameter set A or B, and for every other single character, C and
0 among them, returns 0 and leaves the context unchanged, again without a
registry lookup. -/
theorem pkey_gost_ec_ctrl_str_single (X : Ext) (pctx : gost_pmeth_data)
    (key : Option EVP_PKEY) (c : Nat) :
    (c ∈ [65, 97, 66, 98, 67, 99, 48] →
      ∃ n, n ∈ [NID_id_GostR3410_2001_CryptoPro_A_ParamSet,
                NID_id_GostR3410_2001_CryptoPro_B_ParamSet,
                NID_id_GostR3410_2001_CryptoPro_C_ParamSet,
                NID_id_GostR3410_2001_TestParamSet]
        ∧ pkey_gost_ec_ctrl_str_256 X ⟨some pctx, key⟩ param_ctrl_string (some [c])
          = some ⟨1, ⟨some ⟨n, pctx.md, pctx.shared_ukm, pctx.peer_key_used⟩, key⟩,
              none, [], []⟩)
    ∧ pkey_gost_ec_ctrl_str_512 X ⟨some pctx, key⟩ param_ctrl_string (some [c]) =
        (if c = 65 ∨ c = 97 then
          some ⟨1, ⟨some ⟨NID_id_tc26_gost_3410_2012_512_paramSetA, pctx.md, pctx.shared_ukm,
            pctx.peer_key_used⟩, key⟩, none, [], []⟩
        else if c = 66 ∨ c = 98 then
          some ⟨1, ⟨some ⟨NID_id_tc26_gost_3410_2012_512_paramSetB, pctx.md, pctx.shared_ukm,
            pctx.peer_key_used⟩, key⟩, none, [], []⟩
        else some ⟨0, ⟨some pctx, key⟩, none, [], []⟩) := by
  constructor
  · intro hc
    have h := ec_ctrl_str_256_one_char X pctx key c
    simp only [List.mem_cons, List.mem_singleton, List.not_mem_nil, or_false] at hc
    rw [h]
    rcases hc with hc | hc | hc | hc | hc | hc | hc <;> subst hc <;> simp
  · simp only [pkey_gost_ec_ctrl_str_512, pkey_gost_ctrl_paramset, ne_eq, not_true_eq_false,
      if_false, List.length_singleton, List.getD_cons_zero, if_true,
      toupper_eq_letter c 65 (by omega) (by omega),
      toupper_eq_letter c 66 (by omega) (by omega)]

/-- C9 fails as stated: under the resolver of the 2012-512 family the single
characters C and 0, with the parameter-set control name and an existing
context, return 0 and store nothing. -/
theorem pkey_gost_ec_ctrl_str_512_rejects_C_and_0 :
    pkey_gost_ec_ctrl_str_512 sample_ext sample_ctx param_ctrl_string (some [67])
      = some ⟨0, sample_ctx, none, [], []⟩
    ∧ pkey_gost_ec_ctrl_str_512 sample_ext sample_ctx param_ctrl_string (some [48])
      = some ⟨0, sample_ctx, none, [], []⟩ := by
  constructor <;> rfl

/-- C10: for each of the three resolvers, with the parameter-set control name,
an existing context and a value that none of the resolver's short-code
branches handles (for the legacy and the 256 resolver: not one character long,
and not two characters long starting with X or x; for the 512 resolver: not
one character long), the registry is consulted once; when it returns the
undefined id the call returns 0; when it returns an id that does not occur in
the family's table in front of the terminator the call returns 0 with
InvalidParamSet; when the id occurs there the call returns 1 and the
parameter-set id of the context becomes that id. In both failure cases the
context is unchanged. -/
theorem ctrl_str_registry_lookup (X : Ext) (pctx : gost_pmeth_data)
    (key : Option EVP_PKEY) (v : List Nat) :
    (v.length ≠ 1 → ¬ (v.length = 2 ∧ (v.getD 0 0 = 88 ∨ v.getD 0 0 = 120)) →
      pkey_gost94_ctrl_str X ⟨some pctx, key⟩ param_ctrl_string (some v) =
        if X.OBJ_txt2nid v = NID_undef then
          some ⟨0, ⟨some pctx, key⟩, none, [], [Call.OBJ_txt2nid v]⟩
        else if X.OBJ_txt2nid v ∈ X.R3410_paramset.takeWhile (fun m => decide (m ≠ NID_undef))
        then
          some ⟨1, ⟨some ⟨X.OBJ_txt2nid v, pctx.md, pctx.shared_ukm, pctx.peer_key_used⟩, key⟩,
            none, [], [Call.OBJ_txt2nid v]⟩
        else
          some ⟨0, ⟨some pctx, key⟩, none,
            [⟨GostFunc.GOST_F_PKEY_GOST94_CTRL_STR, GostReason.GOST_R_INVALID_PARAMSET⟩],
            [Call.OBJ_txt2nid v]⟩)
    ∧ (v.length ≠ 1 → ¬ (v.length = 2 ∧ (v.getD 0 0 = 88 ∨ v.getD 0 0 = 120)) →
      pkey_gost_ec_ctrl_str_256 X ⟨some pctx, key⟩ param_ctrl_string (some v) =
        if X.OBJ_txt2nid v = NID_undef then
          some ⟨0, ⟨some pctx, key⟩, none, [], [Call.OBJ_txt2nid v]⟩
        else if X.OBJ_txt2nid v
            ∈ X.R3410_2001_paramset.takeWhile (fun m => decide (m ≠ NID_undef)) then
          some ⟨1, ⟨some ⟨X.OBJ_txt2nid v, pctx.md, pctx.shared_ukm, pctx.peer_key_used⟩, key⟩,
            none, [], [Call.OBJ_txt2nid v]⟩
        else
          some ⟨0, ⟨some pctx, key⟩, none,
            [⟨GostFunc.GOST_F_PKEY_GOST_EC_CTRL_STR_256, GostReason.GOST_R_INVALID_PARAMSET⟩],
            [Call.OBJ_txt2nid v]⟩)
    ∧ (v.length ≠ 1 →
      pkey_gost_ec_ctrl_str_512 X ⟨some pctx, key⟩ param_ctrl_string (some v) =
        if X.OBJ_txt2nid v = NID_undef then
          some ⟨0, ⟨some pctx, key⟩, none, [], [Call.OBJ_txt2nid v]⟩
        else if X.OBJ_txt2nid v
            ∈ X.R3410_2012_512_paramset.takeWhile (fun m => decide (m ≠ NID_undef)) then
          some ⟨1, ⟨some ⟨X.OBJ_txt2nid v, pctx.md, pctx.shared_ukm, pctx.peer_key_used⟩, key⟩,
            none, [], [Call.OBJ_txt2nid v]⟩
        else
          some ⟨0, ⟨some pctx, key⟩, none,
            [⟨GostFunc.GOST_F_PKEY_GOST_EC_CTRL_STR_512, GostReason.GOST_R_INVALID_PARAMSET⟩],
            [Call.OBJ_txt2nid v]⟩) := by
  refine ⟨?_, ?_, ?_⟩
  · intro h1 h2
    have hx : ¬ (v.length = 2 ∧ toupper (v.getD 0 0) = 88) := by
      rw [toupper_eq_letter _ 88 (by omega) (by omega)]
      exact h2
    simp only [pkey_gost94_ctrl_str, if_true, h1, hx, if_false, after_calls_paramset]
    by_cases hu : X.OBJ_txt2nid v = NID_undef
    · simp [hu]
    · simp only [hu, if_false, scan_paramset_eq_undef _ _ hu]
      split_ifs <;> simp_all
  · intro h1 h2
    have hx : ¬ (v.length = 2 ∧ toupper (v.getD 0 0) = 88) := by
      rw [toupper_eq_letter _ 88 (by omega) (by omega)]
      exact h2
    simp only [pkey_gost_ec_ctrl_str_256, if_true, h1, hx, if_false, after_calls_paramset]
    by_cases hu : X.OBJ_txt2nid v = NID_undef
    · simp [hu]
    · simp only [hu, if_false, scan_paramset_eq_undef _ _ hu]
      split_ifs <;> simp_all
  · intro h1
    simp only [pkey_gost_ec_ctrl_str_512, ne_eq, not_true_eq_false, if_false, h1,
      after_calls_paramset]
    by_cases hu : X.OBJ_txt2nid v = NID_undef
    · simp [hu]
    · simp only [hu, if_false, scan_paramset_eq_undef _ _ hu]
      split_ifs <;> simp_all

/-- C10 at concrete inputs in the sample environment: the dotted identifier of
the 2001 CryptoPro A set resolves under the 256 resolver; the same identifier,
known to the registry but absent from the legacy table, fails under the legacy
resolver with InvalidParamSet; a name the registry does not know fails under
the 512 resolver without an error of this file. -/
theorem ctrl_str_registry_lookup_witness :
    pkey_gost_ec_ctrl_str_256 sample_ext sample_ctx param_ctrl_string
        (some oid_2001_CryptoPro_A)
      = some ⟨1, sample_ctx_with NID_id_GostR3410_2001_CryptoPro_A_ParamSet, none, [],
          [Call.OBJ_txt2nid oid_2001_CryptoPro_A]⟩
    ∧ pkey_gost94_ctrl_str sample_ext sample_ctx param_ctrl_string (some oid_2001_CryptoPro_A)
      = some ⟨0, sample_ctx, none,
          [⟨GostFunc.GOST_F_PKEY_GOST94_CTRL_STR, GostReason.GOST_R_INVALID_PARAMSET⟩],
          [Call.OBJ_txt2nid oid_2001_CryptoPro_A]⟩
    ∧ pkey_gost_ec_ctrl_str_512 sample_ext sample_ctx param_ctrl_string (some [122, 122])
      = some ⟨0, sample_ctx, none, [], [Call.OBJ_txt2nid [122, 122]]⟩ :=
  ⟨((ctrl_str_registry_lookup sample_ext ⟨0, none, none, 0⟩ none oid_2001_CryptoPro_A).2.1
      (by decide) (by decide)).trans (by decide),
   ((ctrl_str_registry_lookup sample_ext ⟨0, none, none, 0⟩ none oid_2001_CryptoPro_A).1
      (by decide) (by decide)).trans (by decide),
   ((ctrl_str_registry_lookup sample_ext ⟨0, none, none, 0⟩ none [122, 122]).2.2
      (by decide)).trans (by decide)⟩

/-- C3, as the code has it: for the 2012-256 and the 2012-512 family, whose
registered paramgen is `pkey_gost2012_paramgen`, and every one of the eight
curve parameter-set ids, when materialization succeeds and the framework
accepts the tag, paramgen followed by keygen returns 1 and yields a key tagged
2012-512 for the 512-bit sets A and B and 2012-256 for the six 2001-compatible
sets; for the 2001 family, whose registered paramgen is
`pkey_gost2001_paramgen`, the key is tagged with the plain 2001 id whatever the
parameter set. -/
theorem paramgen_then_keygen_tag (X : Ext) (id flags : Int) (pctx : gost_pmeth_data)
    (key : Option EVP_PKEY) (pkey : EVP_PKEY) (ec : EC_KEY)
    (hnew : X.meth_new_ok = true)
    (hP : pctx.sign_param_nid ≠ NID_undef)
    (hfill : X.fill_GOST_EC_params EC_KEY_new pctx.sign_param_nid = some ec)
    (hassign : ∀ t, X.assign_ok t = true) :
    ((id = NID_id_GostR3410_2012_256 ∨ id = NID_id_GostR3410_2012_512) →
      (pctx.sign_param_nid = NID_id_tc26_gost_3410_2012_512_paramSetA
        ∨ pctx.sign_param_nid = NID_id_tc26_gost_3410_2012_512_paramSetB →
        ∃ g, paramgen_then_keygen X id flags ⟨some pctx, key⟩ pkey = some g ∧ g.ret = 1
          ∧ g.pkey.type = NID_id_GostR3410_2012_512)
      ∧ (pctx.sign_param_nid = NID_id_GostR3410_2001_CryptoPro_A_ParamSet
        ∨ pctx.sign_param_nid = NID_id_GostR3410_2001_CryptoPro_B_ParamSet
        ∨ pctx.sign_param_nid = NID_id_GostR3410_2001_CryptoPro_C_ParamSet
        ∨ pctx.sign_param_nid = NID_id_GostR3410_2001_CryptoPro_XchA_ParamSet
        ∨ pctx.sign_param_nid = NID_id_GostR3410_2001_CryptoPro_XchB_ParamSet
        ∨ pctx.sign_param_nid = NID_id_GostR3410_2001_TestParamSet →
        ∃ g, paramgen_then_keygen X id flags ⟨some pctx, key⟩ pkey = some g ∧ g.ret = 1
          ∧ g.pkey.type = NID_id_GostR3410_2012_256))
    ∧ (id = NID_id_GostR3410_2001 →
        ∃ g, paramgen_then_keygen X id flags ⟨some pctx, key⟩ pkey = some g ∧ g.ret = 1
          ∧ g.pkey.type = NID_id_GostR3410_2001) := by
  have hne : ¬ pctx.sign_param_nid = 0 := hP
  refine ⟨?_, ?_⟩
  · intro hid
    refine ⟨?_, ?_⟩
    · intro hp
      rcases hid with hid | hid <;> subst hid <;>
        simp +decide [paramgen_then_keygen, register_pmeth_gost, register_common, hnew,
          call_paramgen, call_keygen, pkey_gost2012cp_keygen, pkey_gost2012_paramgen,
          hne, hfill, hp, EVP_PKEY_assign, hassign]
    · intro hp
      have h512 : ¬ (pctx.sign_param_nid = 998 ∨ pctx.sign_param_nid = 999) := by
        rcases hp with h | h | h | h | h | h <;> rw [h] <;> decide
      rcases hid with hid | hid <;> subst hid <;>
        simp +decide [paramgen_then_keygen, register_pmeth_gost, register_common, hnew,
          call_paramgen, call_keygen, pkey_gost2012cp_keygen, pkey_gost2012_paramgen,
          hne, hfill, hp, h512, EVP_PKEY_assign, hassign]
  · intro hid
    subst hid
    simp +decide [paramgen_then_keygen, register_pmeth_gost, register_common, hnew,
      call_paramgen, call_keygen, pkey_gost2001cp_keygen, pkey_gost2001_paramgen,
      hne, hfill, EVP_PKEY_assign, hassign]

/-- C3 at a concrete input: the 2012-512 family with the 512-bit parameter set
A in the sample environment. -/
theorem paramgen_then_keygen_tag_witness :
    ∃ g, paramgen_then_keygen sample_ext NID_id_GostR3410_2012_512 0
        (sample_ctx_with NID_id_tc26_gost_3410_2012_512_paramSetA) sample_pkey = some g
      ∧ g.ret = 1 ∧ g.pkey.type = NID_id_GostR3410_2012_512 :=
  ((paramgen_then_keygen_tag sample_ext NID_id_GostR3410_2012_512 0
      ⟨NID_id_tc26_gost_3410_2012_512_paramSetA, none, none, 0⟩ none sample_pkey
      ⟨some ⟨998⟩, none⟩ rfl (by decide) rfl (fun _ => rfl)).1 (Or.inr rfl)).1 (Or.inl rfl)

/-- C3 fails as stated: for the 2001 family with the 2001 CryptoPro A
parameter set, in the sample environment (materialization succeeds), the
registered paramgen followed by the registered keygen returns 1 and yields a
key tagged with the plain 2001 id, not with 2012-256. -/
theorem gost2001_keygen_tags_2001 :
    paramgen_then_keygen sample_ext NID_id_GostR3410_2001 0
        (sample_ctx_with NID_id_GostR3410_2001_CryptoPro_A_ParamSet) sample_pkey
      = some ⟨1, ⟨NID_id_GostR3410_2001, some (KeyData.ec ⟨some ⟨840⟩, some 7⟩)⟩, [],
          [Call.fill_GOST_EC_params 840, Call.EVP_PKEY_assign NID_id_GostR3410_2001,
           Call.gost_ec_keygen]⟩
    ∧ NID_id_GostR3410_2001 ≠ NID_id_GostR3410_2012_256 := by
  constructor
  · rfl
  · decide

/-- C4: with a length slot and no output buffer, `pkey_gost94_cp_sign` returns
1 and reports 64, and `pkey_gost_ec_cp_sign` returns 1 and reports 64 for a
2001 or 2012-256 key and 128 for a 2012-512 key, returning 0 when no key is
attached or the key has another family, all without a call of the raw sign
primitive or the packer. With an output buffer and a raw sign primitive that
delivers a pair, the half-width handed to the packer is half the reported
length: 32 for the legacy family, 32 for 2001 and 2012-256, 64 for 2012-512. -/
theorem sign_length_and_half_width (X : Ext) (data : Option gost_pmeth_data)
    (k : EVP_PKEY) (key : Option EVP_PKEY) (buf : List Nat) (len : Nat) (tbs : List Nat)
    (tbs_len : Nat) :
    pkey_gost94_cp_sign X ⟨data, key⟩ none (some len) tbs tbs_len
      = some ⟨1, some 64, none, ⟨data, key⟩, []⟩
    ∧ pkey_gost_ec_cp_sign X ⟨data, some k⟩ none (some len) tbs tbs_len
      = (if k.type = NID_id_GostR3410_2001 ∨ k.type = NID_id_GostR3410_2012_256 then
          some ⟨1, some 64, none, ⟨data, some k⟩, []⟩
        else if k.type = NID_id_GostR3410_2012_512 then
          some ⟨1, some 128, none, ⟨data, some k⟩, []⟩
        else some ⟨0, some len, none, ⟨data, some k⟩, []⟩)
    ∧ pkey_gost_ec_cp_sign X ⟨data, none⟩ none (some len) tbs tbs_len
      = some ⟨0, some len, none, ⟨data, none⟩, []⟩
    ∧ (∀ s, X.gost_do_sign tbs tbs_len k.ptr = some s →
        pkey_gost94_cp_sign X ⟨data, some k⟩ (some buf) (some len) tbs tbs_len
          = some ⟨(X.pack_sign_cp s 32 len).ret, some (X.pack_sign_cp s 32 len).siglen,
              some (X.pack_sign_cp s 32 len).sig, ⟨data, some k⟩,
              [Call.gost_do_sign, Call.pack_sign_cp 32]⟩)
    ∧ (∀ s, X.gost_ec_sign tbs tbs_len k.ptr = some s →
        pkey_gost_ec_cp_sign X ⟨data, some k⟩ (some buf) (some len) tbs tbs_len
          = (if k.type = NID_id_GostR3410_2001 ∨ k.type = NID_id_GostR3410_2012_256 then
              some ⟨(X.pack_sign_cp s 32 len).ret, some (X.pack_sign_cp s 32 len).siglen,
                some (X.pack_sign_cp s 32 len).sig, ⟨data, some k⟩,
                [Call.gost_ec_sign, Call.pack_sign_cp 32]⟩
            else if k.type = NID_id_GostR3410_2012_512 then
              some ⟨(X.pack_sign_cp s 64 len).ret, some (X.pack_sign_cp s 64 len).siglen,
                some (X.pack_sign_cp s 64 len).sig, ⟨data, some k⟩,
                [Call.gost_ec_sign, Call.pack_sign_cp 64]⟩
            else some ⟨0, some len, none, ⟨data, some k⟩, []⟩)) := by
  refine ⟨rfl, ?_, rfl, ?_, ?_⟩
  · simp only [pkey_gost_ec_cp_sign, pkey_gost_ec_cp_sign_order, EVP_PKEY_base_id]
    split_ifs <;> rfl
  · intro s hs
    simp only [pkey_gost94_cp_sign, hs]
  · intro s hs
    simp only [pkey_gost_ec_cp_sign, pkey_gost_ec_cp_sign_order, EVP_PKEY_base_id, hs]
    split_ifs <;> rfl

/-- C5, as the code has it: verify returns 0 without a call of the raw verify
primitive whenever the signature is absent or the unpacker rejects it; the
unpacker is handed the bytes and their length only, so whether a signature is
rejected before the raw verify primitive does not depend on the family of the
attached key, and a signature the unpacker accepts reaches the primitive under
a key of any family. -/
theorem verify_rejects_before_primitive (X : Ext) (ctx : EVP_PKEY_CTX)
    (sig : Option (List Nat)) (siglen : Nat) (tbs : List Nat) (tbs_len : Nat)
    (h : sig = none ∨ ∃ b, sig = some b ∧ X.unpack_cp_signature b siglen = none) :
    (pkey_gost94_cp_verify X ctx sig siglen tbs tbs_len).ret = 0
    ∧ (∀ s, Call.gost_do_verify s ∉ (pkey_gost94_cp_verify X ctx sig siglen tbs tbs_len).calls)
    ∧ (pkey_gost_ec_cp_verify X ctx sig siglen tbs tbs_len).ret = 0
    ∧ (∀ s, Call.gost_ec_verify s
        ∉ (pkey_gost_ec_cp_verify X ctx sig siglen tbs tbs_len).calls)
    ∧ (∀ (k : EVP_PKEY) (b : List Nat) (s : DSA_SIG), X.unpack_cp_signature b siglen = some s →
        (pkey_gost94_cp_verify X ⟨ctx.data, some k⟩ (some b) siglen tbs tbs_len).calls
          = [Call.unpack_cp_signature siglen, Call.gost_do_verify s]
        ∧ (pkey_gost_ec_cp_verify X ⟨ctx.data, some k⟩ (some b) siglen tbs tbs_len).calls
          = [Call.unpack_cp_signature siglen, Call.gost_ec_verify s]) := by
  refine ⟨?_, ?_, ?_, ?_, ?_⟩
  · rcases h with h | ⟨b, h, hb⟩ <;> subst h <;> simp [pkey_gost94_cp_verify, *]
  · rcases h with h | ⟨b, h, hb⟩ <;> subst h <;> simp [pkey_gost94_cp_verify, *]
  · rcases h with h | ⟨b, h, hb⟩ <;> subst h <;> simp [pkey_gost_ec_cp_verify, *]
  · rcases h with h | ⟨b, h, hb⟩ <;> subst h <;> simp [pkey_gost_ec_cp_verify, *]
  · intro k b s hs
    simp [pkey_gost94_cp_verify, pkey_gost_ec_cp_verify, hs]

/-- C5 at a concrete input: a 63-byte signature under a 2001 key in the sample
environment. -/
theorem verify_rejects_before_primitive_witness :
    (pkey_gost_ec_cp_verify sample_ext (sample_ctx_key NID_id_GostR3410_2001)
        (some (List.replicate 63 0)) 63 [1, 2, 3] 3).ret = 0 :=
  (verify_rejects_before_primitive sample_ext (sample_ctx_key NID_id_GostR3410_2001)
    (some (List.replicate 63 0)) 63 [1, 2, 3] 3
    (Or.inr ⟨List.replicate 63 0, rfl, by decide⟩)).2.2.1

/-- C5 fails as stated: with the unpacker of half-width 32, a 64-byte signature
under a 2012-512 key (whose signatures are 128 bytes long) is handed to the raw
verify primitive, whose result 1 is returned; with the unpacker of half-width
64, so is a 128-byte signature under a 2001 key (whose signatures are 64 bytes
long). -/
theorem verify_length_not_checked_against_family :
    pkey_gost_ec_cp_verify sample_ext (sample_ctx_key NID_id_GostR3410_2012_512)
        (some (List.replicate 64 0)) 64 [1, 2, 3] 3
      = ⟨1, sample_ctx_key NID_id_GostR3410_2012_512,
          [Call.unpack_cp_signature 64, Call.gost_ec_verify ⟨0, 0⟩]⟩
    ∧ pkey_gost_ec_cp_verify sample_ext_64 (sample_ctx_key NID_id_GostR3410_2001)
        (some (List.replicate 128 0)) 128 [1, 2, 3] 3
      = ⟨1, sample_ctx_key NID_id_GostR3410_2001,
          [Call.unpack_cp_signature 128, Call.gost_ec_verify ⟨0, 0⟩]⟩ := by
  constructor <;> decide

/-- C6: for a present signature that the unpacker accepts, verify with an
attached key returns exactly what the raw verify primitive of the family
returns for the digest bytes, the unpacked pair and the key data, and verify
without an attached key returns 0 without a call of the primitive; whatever
the signature, verify hands back the context as it received it. -/
theorem verify_returns_primitive_result (X : Ext) (data : Option gost_pmeth_data)
    (b : List Nat) (siglen : Nat) (tbs : List Nat) (tbs_len : Nat) (s : DSA_SIG)
    (h : X.unpack_cp_signature b siglen = some s) :
    (∀ k : EVP_PKEY,
      pkey_gost94_cp_verify X ⟨data, some k⟩ (some b) siglen tbs tbs_len
        = ⟨X.gost_do_verify tbs tbs_len s k.ptr, ⟨data, some k⟩,
            [Call.unpack_cp_signature siglen, Call.gost_do_verify s]⟩
      ∧ pkey_gost_ec_cp_verify X ⟨data, some k⟩ (some b) siglen tbs tbs_len
        = ⟨X.gost_ec_verify tbs tbs_len s k.ptr, ⟨data, some k⟩,
            [Call.unpack_cp_signature siglen, Call.gost_ec_verify s]⟩)
    ∧ pkey_gost94_cp_verify X ⟨data, none⟩ (some b) siglen tbs tbs_len
        = ⟨0, ⟨data, none⟩, [Call.unpack_cp_signature siglen]⟩
    ∧ pkey_gost_ec_cp_verify X ⟨data, none⟩ (some b) siglen tbs tbs_len
        = ⟨0, ⟨data, none⟩, [Call.unpack_cp_signature siglen]⟩
    ∧ (∀ (ctx : EVP_PKEY_CTX) (sig : Option (List Nat)) (n : Nat),
        (pkey_gost94_cp_verify X ctx sig n tbs tbs_len).ctx = ctx
        ∧ (pkey_gost_ec_cp_verify X ctx sig n tbs tbs_len).ctx = ctx) := by
  refine ⟨?_, ?_, ?_, ?_⟩
  · intro k
    simp [pkey_gost94_cp_verify, pkey_gost_ec_cp_verify, h]
  · simp [pkey_gost94_cp_verify, h]
  · simp [pkey_gost_ec_cp_verify, h]
  · intro ctx sig n
    constructor
    · unfold pkey_gost94_cp_verify
      split <;> try rfl
      split <;> try rfl
      split <;> rfl
    · unfold pkey_gost_ec_cp_verify
      split <;> try rfl
      split <;> try rfl
      split <;> rfl

/-- C6 at a concrete input: a 64-byte signature under a 2012-256 key in the
sample environment, whose raw verify primitive returns 1. -/
theorem verify_returns_primitive_result_witness :
    pkey_gost_ec_cp_verify sample_ext (sample_ctx_key NID_id_GostR3410_2012_256)
        (some (List.replicate 64 0)) 64 [1, 2, 3] 3
      = ⟨1, sample_ctx_key NID_id_GostR3410_2012_256,
          [Call.unpack_cp_signature 64, Call.gost_ec_verify ⟨0, 0⟩]⟩ :=
  ((verify_returns_primitive_result sample_ext (some ⟨0, none, none, 0⟩)
      (List.replicate 64 0) 64 [1, 2, 3] 3 ⟨0, 0⟩ (by decide)).1
    ⟨NID_id_GostR3410_2012_256, some (KeyData.ec ⟨some ⟨840⟩, some 7⟩)⟩).2

/-- C11: for each of the three parameter-set resolvers, every handle and
every value (an absent one included), the call returns -2 exactly when the
control name differs from the parameter-set control name, and then the handle
is unchanged, no error is raised and no outside call is made, whatever the
value; when the name matches the return code is 0 or 1. -/
theorem ctrl_str_three_way (X : Ext) (ctx : EVP_PKEY_CTX) (type : List Nat)
    (value : Option (List Nat)) :
    (∃ o, pkey_gost94_ctrl_str X ctx type value = some o
      ∧ (o.ret = -2 ↔ type ≠ param_ctrl_string)
      ∧ (type ≠ param_ctrl_string → o = ⟨-2, ctx, none, [], []⟩)
      ∧ (type = param_ctrl_string → o.ret = 0 ∨ o.ret = 1))
    ∧ (∃ o, pkey_gost_ec_ctrl_str_256 X ctx type value = some o
      ∧ (o.ret = -2 ↔ type ≠ param_ctrl_string)
      ∧ (type ≠ param_ctrl_string → o = ⟨-2, ctx, none, [], []⟩)
      ∧ (type = param_ctrl_string → o.ret = 0 ∨ o.ret = 1))
    ∧ (∃ o, pkey_gost_ec_ctrl_str_512 X ctx type value = some o
      ∧ (o.ret = -2 ↔ type ≠ param_ctrl_string)
      ∧ (type ≠ param_ctrl_string → o = ⟨-2, ctx, none, [], []⟩)
      ∧ (type = param_ctrl_string → o.ret = 0 ∨ o.ret = 1)) := by
  have key : ∀ (r : Option CtrlOut),
      (type ≠ param_ctrl_string → r = some ⟨-2, ctx, none, [], []⟩) →
      (type = param_ctrl_string → ∃ o, r = some o ∧ (o.ret = 0 ∨ o.ret = 1)) →
      ∃ o, r = some o ∧ (o.ret = -2 ↔ type ≠ param_ctrl_string)
        ∧ (type ≠ param_ctrl_string → o = ⟨-2, ctx, none, [], []⟩)
        ∧ (type = param_ctrl_string → o.ret = 0 ∨ o.ret = 1) := by
    intro r hne heq
    by_cases h : type = param_ctrl_string
    · obtain ⟨o, ho, hr⟩ := heq h
      refine ⟨o, ho, ?_, fun hn => absurd h hn, fun _ => hr⟩
      constructor
      · intro h2
        rcases hr with hr | hr <;> rw [hr] at h2 <;> exact absurd h2 (by decide)
      · intro hn
        exact absurd h hn
    · exact ⟨_, hne h, ⟨fun _ => h, fun _ => rfl⟩, fun _ => rfl, fun h2 => absurd h2 h⟩
  refine ⟨key _ ?_ ?_, key _ ?_ ?_, key _ ?_ ?_⟩
  · intro h
    simp [pkey_gost94_ctrl_str, h]
  · intro h
    subst h
    cases value with
    | none => exact ⟨⟨0, ctx, none, [], []⟩, by simp [pkey_gost94_ctrl_str], Or.inl rfl⟩
    | some v =>
      simp only [pkey_gost94_ctrl_str, if_true]
      split_ifs
      all_goals first
        | exact pkey_gost_ctrl_paramset_ret X ctx _
        | exact after_calls_paramset_ret X ctx _ _
        | exact ⟨_, rfl, Or.inl rfl⟩
  · intro h
    simp [pkey_gost_ec_ctrl_str_256, h]
  · intro h
    subst h
    cases value with
    | none => exact ⟨⟨0, ctx, none, [], []⟩, by simp [pkey_gost_ec_ctrl_str_256], Or.inl rfl⟩
    | some v =>
      simp only [pkey_gost_ec_ctrl_str_256, if_true]
      split_ifs
      all_goals first
        | exact pkey_gost_ctrl_paramset_ret X ctx _
        | exact after_calls_paramset_ret X ctx _ _
        | exact ⟨_, rfl, Or.inl rfl⟩
  · intro h
    simp [pkey_gost_ec_ctrl_str_512, h]
  · intro h
    subst h
    cases value with
    | none => exact ⟨⟨0, ctx, none, [], []⟩, by simp [pkey_gost_ec_ctrl_str_512], Or.inl rfl⟩
    | some v =>
      simp only [pkey_gost_ec_ctrl_str_512, ne_eq, not_true_eq_false, if_false]
      split_ifs
      all_goals first
        | exact pkey_gost_ctrl_paramset_ret X ctx _
        | exact after_calls_paramset_ret X ctx _ _
        | exact ⟨_, rfl, Or.inl rfl⟩

/-- C12: for each of the three paramgen operations, when the handle has no
state or its parameter-set id is the unset sentinel the call returns 0 with
NoParametersSet, makes no outside call (no materialization) and hands back the
key handle as it was, and so does the keygen operation built on it. In
particular on a handle created by `pkey_gost_init` without a key, with no
parameter set selected, all three paramgen and all three keygen operations
return 0. -/
theorem paramgen_without_parameters (X : Ext) (ctx : EVP_PKEY_CTX) (key : EVP_PKEY)
    (pkey : EVP_PKEY) (d0 : Option gost_pmeth_data) :
    ((ctx.data = none ∨ ∃ d, ctx.data = some d ∧ d.sign_param_nid = NID_undef) →
      pkey_gost94_paramgen X ctx pkey
        = ⟨0, pkey, [⟨GostFunc.GOST_F_PKEY_GOST94_PARAMGEN,
            GostReason.GOST_R_NO_PARAMETERS_SET⟩], []⟩
      ∧ pkey_gost2001_paramgen X ctx pkey
        = ⟨0, pkey, [⟨GostFunc.GOST_F_PKEY_GOST01_PARAMGEN,
            GostReason.GOST_R_NO_PARAMETERS_SET⟩], []⟩
      ∧ pkey_gost2012_paramgen X ctx pkey
        = ⟨0, pkey, [⟨GostFunc.GOST_F_PKEY_GOST12_PARAMGEN,
            GostReason.GOST_R_NO_PARAMETERS_SET⟩], []⟩
      ∧ pkey_gost94cp_keygen X ctx pkey
        = some ⟨0, pkey, [⟨GostFunc.GOST_F_PKEY_GOST94_PARAMGEN,
            GostReason.GOST_R_NO_PARAMETERS_SET⟩], []⟩
      ∧ pkey_gost2001cp_keygen X ctx pkey
        = some ⟨0, pkey, [⟨GostFunc.GOST_F_PKEY_GOST01_PARAMGEN,
            GostReason.GOST_R_NO_PARAMETERS_SET⟩], []⟩
      ∧ pkey_gost2012cp_keygen X ctx pkey
        = some ⟨0, pkey, [⟨GostFunc.GOST_F_PKEY_GOST12_PARAMGEN,
            GostReason.GOST_R_NO_PARAMETERS_SET⟩], []⟩)
    ∧ (∀ i, (pkey_gost_init X ⟨d0, none⟩ = some i
          ∨ (key.ptr = none ∧ pkey_gost_init X ⟨d0, some key⟩ = some i)) → i.ret = 1 →
        (pkey_gost94_paramgen X i.ctx pkey).ret = 0
        ∧ (pkey_gost2001_paramgen X i.ctx pkey).ret = 0
        ∧ (pkey_gost2012_paramgen X i.ctx pkey).ret = 0
        ∧ (pkey_gost94cp_keygen X i.ctx pkey).map GenOut.ret = some 0
        ∧ (pkey_gost2001cp_keygen X i.ctx pkey).map GenOut.ret = some 0
        ∧ (pkey_gost2012cp_keygen X i.ctx pkey).map GenOut.ret = some 0) := by
  have main : ∀ c : EVP_PKEY_CTX,
      (c.data = none ∨ ∃ d, c.data = some d ∧ d.sign_param_nid = NID_undef) →
      pkey_gost94_paramgen X c pkey
        = ⟨0, pkey, [⟨GostFunc.GOST_F_PKEY_GOST94_PARAMGEN,
            GostReason.GOST_R_NO_PARAMETERS_SET⟩], []⟩
      ∧ pkey_gost2001_paramgen X c pkey
        = ⟨0, pkey, [⟨GostFunc.GOST_F_PKEY_GOST01_PARAMGEN,
            GostReason.GOST_R_NO_PARAMETERS_SET⟩], []⟩
      ∧ pkey_gost2012_paramgen X c pkey
        = ⟨0, pkey, [⟨GostFunc.GOST_F_PKEY_GOST12_PARAMGEN,
            GostReason.GOST_R_NO_PARAMETERS_SET⟩], []⟩ := by
    intro c h
    rcases h with h | ⟨d, h, hd⟩
    · simp [pkey_gost94_paramgen, pkey_gost2001_paramgen, pkey_gost2012_paramgen, h]
    · simp [pkey_gost94_paramgen, pkey_gost2001_paramgen, pkey_gost2012_paramgen, h, hd]
  refine ⟨?_, ?_⟩
  · intro h
    obtain ⟨h1, h2, h3⟩ := main ctx h
    refine ⟨h1, h2, h3, ?_, ?_, ?_⟩
    · simp [pkey_gost94cp_keygen, h1]
    · simp [pkey_gost2001cp_keygen, h2]
    · simp [pkey_gost2012cp_keygen, h3]
  · intro i hi hret
    have hdata : i.ctx.data = some ⟨0, none, none, 0⟩ := by
      rcases hi with hi | ⟨hk, hi⟩
      · unfold pkey_gost_init at hi
        split_ifs at hi with hm
        · simp only [Option.some.injEq] at hi
          rw [← hi] at hret
          simp at hret
        · simp only [Option.some.injEq] at hi
          rw [← hi]
      · unfold pkey_gost_init at hi
        split_ifs at hi with hm
        · simp only [Option.some.injEq] at hi
          rw [← hi] at hret
          simp at hret
        · simp only [hk, Option.some.injEq] at hi
          rw [← hi]
    obtain ⟨h1, h2, h3⟩ := main i.ctx (Or.inr ⟨_, hdata, rfl⟩)
    refine ⟨by rw [h1], by rw [h2], by rw [h3], ?_, ?_, ?_⟩
    · simp [pkey_gost94cp_keygen, h1]
    · simp [pkey_gost2001cp_keygen, h2]
    · simp [pkey_gost2012cp_keygen, h3]

/-- C12 at a concrete input: in the sample environment `pkey_gost_init` on a
fresh handle returns 1, and the 2012 paramgen on the handle it leaves returns
0 with NoParametersSet, without outside calls and without touching the key
handle. -/
theorem paramgen_without_parameters_witness :
    pkey_gost_init sample_ext fresh_ctx = some ⟨1, sample_ctx, []⟩
    ∧ pkey_gost2012_paramgen sample_ext sample_ctx sample_pkey
        = ⟨0, sample_pkey, [⟨GostFunc.GOST_F_PKEY_GOST12_PARAMGEN,
            GostReason.GOST_R_NO_PARAMETERS_SET⟩], []⟩ :=
  ⟨by decide,
   ((paramgen_without_parameters sample_ext sample_ctx sample_pkey sample_pkey none).1
      (Or.inr ⟨⟨0, none, none, 0⟩, rfl, rfl⟩)).2.2.1⟩

/-- C13, as the code has it: when the allocation of the state fails
`pkey_gost_init` returns 0 and installs nothing. When it succeeds: with no
attached key, or a key handle without key data, the call returns 1 and installs
a state with unset digest, the unset parameter-set id, no shared secret and
peer-key flag 0; with a legacy-family key it returns 1 and the parameter-set
id is what `gost94_nid_by_params` reads off the key; with a 2001, 2012-256 or
2012-512 key that has a curve group it returns 1 and the parameter-set id is
the curve name of the group; with a curve-family key without group, or a key
with key data of any other family, it returns 0 and installs nothing. -/
theorem pkey_gost_init_cases (X : Ext) (d0 : Option gost_pmeth_data) (k : EVP_PKEY) :
    (X.malloc_ok sizeof_gost_pmeth_data = false →
      ∀ ctx, pkey_gost_init X ctx = some ⟨0, ctx, []⟩)
    ∧ (X.malloc_ok sizeof_gost_pmeth_data = true →
      pkey_gost_init X ⟨d0, none⟩ = some ⟨1, ⟨some ⟨NID_undef, none, none, 0⟩, none⟩, []⟩
      ∧ (k.ptr = none →
          pkey_gost_init X ⟨d0, some k⟩
            = some ⟨1, ⟨some ⟨NID_undef, none, none, 0⟩, some k⟩, []⟩)
      ∧ (∀ dsa, k.type = NID_id_GostR3410_94 → k.ptr = some (KeyData.dsa dsa) →
          pkey_gost_init X ⟨d0, some k⟩
            = some ⟨1, ⟨some ⟨X.gost94_nid_by_params dsa, none, none, 0⟩, some k⟩,
                [Call.gost94_nid_by_params]⟩)
      ∧ (∀ e g, k.type = NID_id_GostR3410_2001 ∨ k.type = NID_id_GostR3410_2012_256
            ∨ k.type = NID_id_GostR3410_2012_512 →
          k.ptr = some (KeyData.ec e) → e.group = some g →
          pkey_gost_init X ⟨d0, some k⟩
            = some ⟨1, ⟨some ⟨g.curve_name, none, none, 0⟩, some k⟩, []⟩)
      ∧ (∀ e, k.type = NID_id_GostR3410_2001 ∨ k.type = NID_id_GostR3410_2012_256
            ∨ k.type = NID_id_GostR3410_2012_512 →
          k.ptr = some (KeyData.ec e) → e.group = none →
          pkey_gost_init X ⟨d0, some k⟩ = some ⟨0, ⟨d0, some k⟩, []⟩)
      ∧ (∀ kd, k.type ≠ NID_id_GostR3410_94 → k.type ≠ NID_id_GostR3410_2001 →
          k.type ≠ NID_id_GostR3410_2012_256 → k.type ≠ NID_id_GostR3410_2012_512 →
          k.ptr = some kd →
          pkey_gost_init X ⟨d0, some k⟩ = some ⟨0, ⟨d0, some k⟩, []⟩)) := by
  refine ⟨?_, ?_⟩
  · intro hm ctx
    simp [pkey_gost_init, hm]
  · intro hm
    refine ⟨?_, ?_, ?_, ?_, ?_, ?_⟩
    · simp [pkey_gost_init, hm]
    · intro hk
      simp [pkey_gost_init, hm, hk]
    · intro dsa ht hk
      simp [pkey_gost_init, hm, hk, ht, EVP_PKEY_base_id]
    · intro e g ht hk hg
      have h94 : ¬ k.type = 812 := by rcases ht with h | h | h <;> rw [h] <;> decide
      simp [pkey_gost_init, hm, hk, hg, ht, h94, EVP_PKEY_base_id]
    · intro e ht hk hg
      have h94 : ¬ k.type = 812 := by rcases ht with h | h | h <;> rw [h] <;> decide
      simp [pkey_gost_init, hm, hk, hg, ht, h94, EVP_PKEY_base_id]
    · intro kd h1 h2 h3 h4 hk
      have h1' : ¬ k.type = 812 := h1
      have h2' : ¬ k.type = 811 := h2
      have h3' : ¬ k.type = 979 := h3
      have h4' : ¬ k.type = 980 := h4
      simp [pkey_gost_init, hm, hk, h1', h2', h3', h4', EVP_PKEY_base_id]

/-- C13 fails as stated: in the sample environment with an allocator that has
no memory left, `pkey_gost_init` on a handle without attached key returns 0
and installs no state. -/
theorem pkey_gost_init_fails_without_memory :
    pkey_gost_init sample_ext_no_memory fresh_ctx = some ⟨0, fresh_ctx, []⟩ := by
  decide

/-- C14: a `pkey_gost_copy` that returns 1 leaves a destination whose state
has the digest reference, the parameter-set id and the peer-key flag of the
source and no shared secret, whatever the source's shared secret and whatever
id the destination's own key gave at creation; the destination keeps its
attached key and the source handle is unchanged. A copy returns 1 whenever the
source has state and the creation of the destination state succeeds. -/
theorem pkey_gost_copy_success (X : Ext) (dst src : EVP_PKEY_CTX) (o : CopyOut)
    (h : pkey_gost_copy X dst src = some o) (hret : o.ret = 1) :
    (∃ sd, src.data = some sd
      ∧ o.dst.data = some ⟨sd.sign_param_nid, sd.md, none, sd.peer_key_used⟩)
    ∧ o.dst.pkey = dst.pkey
    ∧ o.src = src
    ∧ (∀ (i : InitOut) (sd : gost_pmeth_data) (key : Option EVP_PKEY),
        pkey_gost_init X dst = some i → i.ret = 1 →
        pkey_gost_copy X dst ⟨some sd, key⟩
          = some ⟨1, ⟨some ⟨sd.sign_param_nid, sd.md, none, sd.peer_key_used⟩, dst.pkey⟩,
              ⟨some sd, key⟩, i.calls⟩) := by
  unfold pkey_gost_copy at h
  split at h
  · exact absurd h (by simp)
  · rename_i i hi
    rcases pkey_gost_init_ret X dst i hi with ⟨h0, _⟩ | ⟨h1, hp, d, hd⟩
    · simp only [h0, if_true, Option.some.injEq] at h
      rw [← h] at hret
      simp at hret
    · have hne : ¬ i.ret = 0 := by rw [h1]; decide
      simp only [hne, if_false, hd] at h
      have total : ∀ (j : InitOut) (sd : gost_pmeth_data) (key : Option EVP_PKEY),
          pkey_gost_init X dst = some j → j.ret = 1 →
          pkey_gost_copy X dst ⟨some sd, key⟩
            = some ⟨1, ⟨some ⟨sd.sign_param_nid, sd.md, none, sd.peer_key_used⟩, dst.pkey⟩,
                ⟨some sd, key⟩, j.calls⟩ := by
        intro j sd key hj hr
        rcases pkey_gost_init_ret X dst j hj with ⟨h0, _⟩ | ⟨_, hp2, d2, hd2⟩
        · rw [hr] at h0
          exact absurd h0 (by decide)
        · have hne2 : ¬ j.ret = 0 := by rw [hr]; decide
          rcases j with ⟨r, ⟨jdata, jpkey⟩, cs⟩
          simp only at hp2 hd2 hne2
          subst hp2
          subst hd2
          simp only [pkey_gost_copy, hj, hne2, if_false, copied_state]
      cases hs : src.data with
      | none =>
        simp only [hs, Option.some.injEq] at h
        rw [← h] at hret
        simp at hret
      | some sd =>
        simp only [hs, Option.some.injEq, copied_state] at h
        rw [← h]
        exact ⟨⟨sd, rfl, rfl⟩, hp, rfl, total⟩

/-- C14 at a concrete input: in the sample environment, a source with a shared
secret and the 2001 exchange A parameter set is copied onto a destination
whose own 2001 key is on the curve of id 840; the destination ends with the
source's digest, parameter-set id and flag and without shared secret, and the
source keeps its shared secret. -/
theorem pkey_gost_copy_success_witness :
    pkey_gost_copy sample_ext sample_dst sample_src
        = some ⟨1, ⟨some ⟨NID_id_GostR3410_2001_CryptoPro_XchA_ParamSet,
            some ⟨NID_id_GostR3411_94, 1⟩, none, 1⟩, sample_dst.pkey⟩, sample_src, []⟩
    ∧ (∃ sd, sample_src.data = some sd
        ∧ some (⟨NID_id_GostR3410_2001_CryptoPro_XchA_ParamSet,
              some ⟨NID_id_GostR3411_94, 1⟩, none, 1⟩ : gost_pmeth_data)
          = some ⟨sd.sign_param_nid, sd.md, none, sd.peer_key_used⟩) :=
  ⟨by decide,
   (pkey_gost_copy_success sample_ext sample_dst sample_src
      ⟨1, ⟨some ⟨NID_id_GostR3410_2001_CryptoPro_XchA_ParamSet,
        some ⟨NID_id_GostR3411_94, 1⟩, none, 1⟩, sample_dst.pkey⟩, sample_src, []⟩
      (by decide) rfl).1⟩

/-- C13 at a concrete input: in the sample environment a handle with a 2001
key on the curve of id 840 gets a state whose parameter-set id is 840. -/
theorem pkey_gost_init_cases_witness :
    pkey_gost_init sample_ext sample_dst
      = some ⟨1, ⟨some ⟨840, none, none, 0⟩, sample_dst.pkey⟩, []⟩ :=
  ((pkey_gost_init_cases sample_ext none
      ⟨NID_id_GostR3410_2001, some (KeyData.ec ⟨some ⟨840⟩, some 7⟩)⟩).2 rfl).2.2.2.1
    ⟨some ⟨840⟩, some 7⟩ ⟨840⟩ (Or.inl rfl) rfl rfl

/-- C15: on an existing context, `EVP_PKEY_CTRL_PEER_KEY` with sub-request 0 or
1 returns 1 and changes nothing; with sub-request 2 it returns the stored
peer-key flag and changes nothing; with sub-request 3 it sets the flag to 1,
returns 1 and changes no other field, so that a following sub-request 2
returns 1. -/
theorem pkey_gost_ctrl_peer_key (X : Ext) (pctx : gost_pmeth_data)
    (key : Option EVP_PKEY) (p2 q2 : Arg) :
    pkey_gost_ctrl X ⟨some pctx, key⟩ EVP_PKEY_CTRL_PEER_KEY 0 p2
      = some ⟨1, ⟨some pctx, key⟩, none, [], []⟩
    ∧ pkey_gost_ctrl X ⟨some pctx, key⟩ EVP_PKEY_CTRL_PEER_KEY 1 p2
      = some ⟨1, ⟨some pctx, key⟩, none, [], []⟩
    ∧ pkey_gost_ctrl X ⟨some pctx, key⟩ EVP_PKEY_CTRL_PEER_KEY 2 p2
      = some ⟨pctx.peer_key_used, ⟨some pctx, key⟩, none, [], []⟩
    ∧ pkey_gost_ctrl X ⟨some pctx, key⟩ EVP_PKEY_CTRL_PEER_KEY 3 p2
      = some ⟨1, ⟨some ⟨pctx.sign_param_nid, pctx.md, pctx.shared_ukm, 1⟩, key⟩,
          none, [], []⟩
    ∧ pkey_gost_ctrl X ⟨some ⟨pctx.sign_param_nid, pctx.md, pctx.shared_ukm, 1⟩, key⟩
        EVP_PKEY_CTRL_PEER_KEY 2 q2
      = some ⟨1, ⟨some ⟨pctx.sign_param_nid, pctx.md, pctx.shared_ukm, 1⟩, key⟩,
          none, [], []⟩ := by
  refine ⟨?_, ?_, ?_, ?_, ?_⟩ <;> simp +decide [pkey_gost_ctrl]

/-- C16: on an existing context, every request kind other than set and get
digest, the seven passthrough acknowledgements, set parameter set, set shared
secret and peer key, and every peer-key request with a sub-request other than
0, 1, 2 and 3, returns -2 with ControlCallFailed and leaves the context
unchanged; each of the seven passthrough acknowledgements (digest-init and the
PKCS7 and CMS encrypt, decrypt and sign hooks) returns 1 and leaves the context
unchanged. -/
theorem pkey_gost_ctrl_unsupported (X : Ext) (pctx : gost_pmeth_data)
    (key : Option EVP_PKEY) (type p1 : Int) (p2 : Arg) :
    (type ∉ [EVP_PKEY_CTRL_MD, EVP_PKEY_CTRL_GET_MD, EVP_PKEY_CTRL_PKCS7_ENCRYPT,
        EVP_PKEY_CTRL_PKCS7_DECRYPT, EVP_PKEY_CTRL_PKCS7_SIGN, EVP_PKEY_CTRL_DIGESTINIT,
        EVP_PKEY_CTRL_CMS_ENCRYPT, EVP_PKEY_CTRL_CMS_DECRYPT, EVP_PKEY_CTRL_CMS_SIGN,
        EVP_PKEY_CTRL_GOST_PARAMSET, EVP_PKEY_CTRL_SET_IV, EVP_PKEY_CTRL_PEER_KEY] →
      pkey_gost_ctrl X ⟨some pctx, key⟩ type p1 p2
        = some ⟨-2, ⟨some pctx, key⟩, none,
            [⟨GostFunc.GOST_F_PKEY_GOST_CTRL, GostReason.GOST_R_CTRL_CALL_FAILED⟩], []⟩)
    ∧ (p1 ∉ [0, 1, 2, 3] →
      pkey_gost_ctrl X ⟨some pctx, key⟩ EVP_PKEY_CTRL_PEER_KEY p1 p2
        = some ⟨-2, ⟨some pctx, key⟩, none,
            [⟨GostFunc.GOST_F_PKEY_GOST_CTRL, GostReason.GOST_R_CTRL_CALL_FAILED⟩], []⟩)
    ∧ (type ∈ [EVP_PKEY_CTRL_PKCS7_ENCRYPT, EVP_PKEY_CTRL_PKCS7_DECRYPT,
        EVP_PKEY_CTRL_PKCS7_SIGN, EVP_PKEY_CTRL_DIGESTINIT, EVP_PKEY_CTRL_CMS_ENCRYPT,
        EVP_PKEY_CTRL_CMS_DECRYPT, EVP_PKEY_CTRL_CMS_SIGN] →
      pkey_gost_ctrl X ⟨some pctx, key⟩ type p1 p2
        = some ⟨1, ⟨some pctx, key⟩, none, [], []⟩) := by
  refine ⟨?_, ?_, ?_⟩
  · intro h
    simp only [List.mem_cons, List.mem_singleton, List.not_mem_nil, or_false, not_or] at h
    obtain ⟨h1, h2, h3, h4, h5, h6, h7, h8, h9, h10, h11, h12⟩ := h
    simp only [pkey_gost_ctrl, h1, h2, h3, h4, h5, h6, h7, h8, h9, h10, h11, h12, if_false,
      or_self]
  · intro h
    simp only [List.mem_cons, List.mem_singleton, List.not_mem_nil, or_false, not_or] at h
    obtain ⟨h0, h1, h2, h3⟩ := h
    simp +decide [pkey_gost_ctrl, h0, h1, h2, h3]
  · intro h
    simp only [List.mem_cons, List.mem_singleton, List.not_mem_nil, or_false] at h
    rcases h with h | h | h | h | h | h | h <;> subst h <;> simp +decide [pkey_gost_ctrl]

/-- C17: on a handle without state `pkey_gost_ctrl` returns 0 for every request
kind, integer argument and blob argument, and each of the three parameter-set
resolvers, given the parameter-set control name, returns 0 for every value,
resolvable ones included; the handle is unchanged. -/
theorem context_less_request_fails (X : Ext) (key : Option EVP_PKEY) (type p1 : Int)
    (p2 : Arg) (value : Option (List Nat)) :
    pkey_gost_ctrl X ⟨none, key⟩ type p1 p2 = some ⟨0, ⟨none, key⟩, none, [], []⟩
    ∧ (∃ o, pkey_gost94_ctrl_str X ⟨none, key⟩ param_ctrl_string value = some o
        ∧ o.ret = 0 ∧ o.ctx = ⟨none, key⟩)
    ∧ (∃ o, pkey_gost_ec_ctrl_str_256 X ⟨none, key⟩ param_ctrl_string value = some o
        ∧ o.ret = 0 ∧ o.ctx = ⟨none, key⟩)
    ∧ (∃ o, pkey_gost_ec_ctrl_str_512 X ⟨none, key⟩ param_ctrl_string value = some o
        ∧ o.ret = 0 ∧ o.ctx = ⟨none, key⟩) := by
  refine ⟨pkey_gost_ctrl_no_state X key type p1 p2, ?_, ?_, ?_⟩
  · cases value with
    | none => exact ⟨⟨0, ⟨none, key⟩, none, [], []⟩, by simp [pkey_gost94_ctrl_str], rfl, rfl⟩
    | some v =>
      simp only [pkey_gost94_ctrl_str, if_true, pkey_gost_ctrl_no_state, after_calls,
        Option.map_some']
      split_ifs <;> exact ⟨_, rfl, rfl, rfl⟩
  · cases value with
    | none =>
      exact ⟨⟨0, ⟨none, key⟩, none, [], []⟩, by simp [pkey_gost_ec_ctrl_str_256], rfl, rfl⟩
    | some v =>
      simp only [pkey_gost_ec_ctrl_str_256, if_true, pkey_gost_ctrl_no_state, after_calls,
        Option.map_some']
      split_ifs <;> exact ⟨_, rfl, rfl, rfl⟩
  · cases value with
    | none =>
      exact ⟨⟨0, ⟨none, key⟩, none, [], []⟩, by simp [pkey_gost_ec_ctrl_str_512], rfl, rfl⟩
    | some v =>
      simp only [pkey_gost_ec_ctrl_str_512, ne_eq, not_true_eq_false, if_false,
        pkey_gost_ctrl_no_state, after_calls, Option.map_some']
      split_ifs <;> exact ⟨_, rfl, rfl, rfl⟩

/-- C18: on an existing MAC context, `EVP_PKEY_CTRL_SET_MAC_KEY` with any
length other than 32 returns 0 with InvalidMacKeyLength and leaves digest, key
bytes and key-set flag as they were; with length 32 and a buffer that holds the
32 bytes it returns 1, the stored key is those 32 bytes, the key-set flag is 1
and the digest field is unchanged. -/
theorem mac_ctrl_set_mac_key (X : Ext) (data : gost_mac_pmeth_data)
    (key : Option EVP_PKEY) (p1 : Int) (p2 : Arg) (b : List Nat) :
    (p1 ≠ 32 →
      pkey_gost_mac_ctrl X ⟨some data, key⟩ EVP_PKEY_CTRL_SET_MAC_KEY p1 p2
        = some ⟨0, ⟨some data, key⟩, none, none,
            [⟨GostFunc.GOST_F_PKEY_GOST_MAC_CTRL, GostReason.GOST_R_INVALID_MAC_KEY_LENGTH⟩],
            []⟩)
    ∧ (32 ≤ b.length →
      pkey_gost_mac_ctrl X ⟨some data, key⟩ EVP_PKEY_CTRL_SET_MAC_KEY 32 (Arg.bytes b)
        = some ⟨1, ⟨some ⟨1, data.md, b.take 32⟩, key⟩, none, none, [], []⟩)
    ∧ (b.length = 32 →
      pkey_gost_mac_ctrl X ⟨some data, key⟩ EVP_PKEY_CTRL_SET_MAC_KEY 32 (Arg.bytes b)
        = some ⟨1, ⟨some ⟨1, data.md, b⟩, key⟩, none, none, [], []⟩) := by
  refine ⟨?_, ?_, ?_⟩
  · intro h
    simp +decide [pkey_gost_mac_ctrl, h]
  · intro h
    simp +decide [pkey_gost_mac_ctrl, h]
  · intro h
    have hle : 32 ≤ b.length := by omega
    have ht : b.take 32 = b := List.take_of_length_le (by omega)
    simp +decide [pkey_gost_mac_ctrl, hle, ht]

/-- C18 at concrete inputs: on the sample MAC handle the lengths 31 and 33 are
refused and leave the handle as it was, and 32 bytes of value 5 with length 32
are stored. -/
theorem mac_ctrl_set_mac_key_witness :
    pkey_gost_mac_ctrl sample_ext sample_mac_ctx EVP_PKEY_CTRL_SET_MAC_KEY 31
        (Arg.bytes (List.replicate 31 5))
      = some ⟨0, sample_mac_ctx, none, none,
          [⟨GostFunc.GOST_F_PKEY_GOST_MAC_CTRL, GostReason.GOST_R_INVALID_MAC_KEY_LENGTH⟩], []⟩
    ∧ pkey_gost_mac_ctrl sample_ext sample_mac_ctx EVP_PKEY_CTRL_SET_MAC_KEY 33
        (Arg.bytes (List.replicate 33 5))
      = some ⟨0, sample_mac_ctx, none, none,
          [⟨GostFunc.GOST_F_PKEY_GOST_MAC_CTRL, GostReason.GOST_R_INVALID_MAC_KEY_LENGTH⟩], []⟩
    ∧ pkey_gost_mac_ctrl sample_ext sample_mac_ctx EVP_PKEY_CTRL_SET_MAC_KEY 32
        (Arg.bytes (List.replicate 32 5))
      = some ⟨1, sample_mac_ctx_keyed, none, none, [], []⟩ :=
  ⟨(mac_ctrl_set_mac_key sample_ext ⟨0, none, List.replicate 32 0⟩ none 31
      (Arg.bytes (List.replicate 31 5)) []).1 (by decide),
   (mac_ctrl_set_mac_key sample_ext ⟨0, none, List.replicate 32 0⟩ none 33
      (Arg.bytes (List.replicate 33 5)) []).1 (by decide),
   (mac_ctrl_set_mac_key sample_ext ⟨0, none, List.replicate 32 0⟩ none 32
      Arg.null (List.replicate 32 5)).2.2 (by decide)⟩

/-- C19: on an existing MAC context, under the hex-key control name
`pkey_gost_mac_ctrl_str` returns 1 exactly when the hex decoder delivers a
buffer of exactly 32 bytes, and then the stored key is the decoded bytes and
the key-set flag is 1, while a decode failure or any other decoded length
returns 0 with InvalidMacKeyLength and leaves the context unchanged; under the
raw-key control name it returns 1 exactly when the text is 32 characters long,
storing those 32 bytes, and 0 with the context unchanged otherwise; under any
other control name it returns -2 and leaves the context unchanged. -/
theorem mac_ctrl_str_cases (X : Ext) (data : gost_mac_pmeth_data)
    (key : Option EVP_PKEY) (type : List Nat) (value : Option (List Nat)) (v : List Nat) :
    (∀ kb, X.string_to_hex value = some kb → kb.length = 32 →
      pkey_gost_mac_ctrl_str X ⟨some data, key⟩ hexkey_ctrl_string value
        = some ⟨1, ⟨some ⟨1, data.md, kb⟩, key⟩, none, none, [],
            [Call.string_to_hex value]⟩)
    ∧ (X.string_to_hex value = none
        ∨ (∃ kb, X.string_to_hex value = some kb ∧ kb.length ≠ 32) →
      pkey_gost_mac_ctrl_str X ⟨some data, key⟩ hexkey_ctrl_string value
        = some ⟨0, ⟨some data, key⟩, none, none,
            [⟨GostFunc.GOST_F_PKEY_GOST_MAC_CTRL_STR,
              GostReason.GOST_R_INVALID_MAC_KEY_LENGTH⟩],
            [Call.string_to_hex value]⟩)
    ∧ (v.length = 32 →
      pkey_gost_mac_ctrl_str X ⟨some data, key⟩ key_ctrl_string (some v)
        = some ⟨1, ⟨some ⟨1, data.md, v⟩, key⟩, none, none, [], []⟩)
    ∧ (v.length ≠ 32 →
      pkey_gost_mac_ctrl_str X ⟨some data, key⟩ key_ctrl_string (some v)
        = some ⟨0, ⟨some data, key⟩, none, none,
            [⟨GostFunc.GOST_F_PKEY_GOST_MAC_CTRL_STR,
              GostReason.GOST_R_INVALID_MAC_KEY_LENGTH⟩], []⟩)
    ∧ (type ≠ key_ctrl_string → type ≠ hexkey_ctrl_string →
      pkey_gost_mac_ctrl_str X ⟨some data, key⟩ type value
        = some ⟨-2, ⟨some data, key⟩, none, none, [], []⟩) := by
  have set32 : ∀ w : List Nat, w.length = 32 →
      pkey_gost_mac_ctrl X ⟨some data, key⟩ EVP_PKEY_CTRL_SET_MAC_KEY 32 (Arg.bytes w)
        = some ⟨1, ⟨some ⟨1, data.md, w⟩, key⟩, none, none, [], []⟩ := by
    intro w hw
    have hle : 32 ≤ w.length := by omega
    have ht : w.take 32 = w := List.take_of_length_le (by omega)
    simp +decide [pkey_gost_mac_ctrl, hle, ht]
  have hnames : hexkey_ctrl_string ≠ key_ctrl_string := by decide
  refine ⟨?_, ?_, ?_, ?_, ?_⟩
  · intro kb hk hlen
    simp [pkey_gost_mac_ctrl_str, hnames, hk, hlen, set32 kb hlen, mac_after_calls]
  · intro h
    rcases h with h | ⟨kb, h, hlen⟩
    · simp [pkey_gost_mac_ctrl_str, hnames, h]
    · simp [pkey_gost_mac_ctrl_str, hnames, h, hlen]
  · intro hlen
    simp [pkey_gost_mac_ctrl_str, hlen, set32 v hlen]
  · intro hlen
    simp [pkey_gost_mac_ctrl_str, hlen]
  · intro h1 h2
    simp [pkey_gost_mac_ctrl_str, h1, h2]

/-- C19 at concrete inputs in the sample environment: the text of 64 zeros
under the hex-key name stores 32 zero bytes and sets the flag; the text "01",
which decodes to one byte, is refused. -/
theorem mac_ctrl_str_cases_witness :
    pkey_gost_mac_ctrl_str sample_ext sample_mac_ctx hexkey_ctrl_string (some hex_64_zeros)
      = some ⟨1, ⟨some ⟨1, none, List.replicate 32 0⟩, none⟩, none, none, [],
          [Call.string_to_hex (some hex_64_zeros)]⟩
    ∧ pkey_gost_mac_ctrl_str sample_ext sample_mac_ctx hexkey_ctrl_string (some [48, 49])
      = some ⟨0, sample_mac_ctx, none, none,
          [⟨GostFunc.GOST_F_PKEY_GOST_MAC_CTRL_STR,
            GostReason.GOST_R_INVALID_MAC_KEY_LENGTH⟩],
          [Call.string_to_hex (some [48, 49])]⟩ :=
  ⟨(mac_ctrl_str_cases sample_ext ⟨0, none, List.replicate 32 0⟩ none [] (some hex_64_zeros)
      []).1 (List.replicate 32 0) (by decide) (by decide),
   (mac_ctrl_str_cases sample_ext ⟨0, none, List.replicate 32 0⟩ none [] (some [48, 49])
      []).2.1 (Or.inr ⟨[1], by decide, by decide⟩)⟩

/-- C20, as the code has it: when the MAC context has no state or its key-set
flag is 0, `pkey_gost_mac_keygen` and `pkey_gost_mac_keygen_12` return 0 with
MacKeyNotSet, make no outside call and hand back the key handle as it was.
Otherwise, when the allocation of the 32-byte buffer fails they return 0 and
hand back the key handle as it was; when it succeeds and the framework accepts
the id, they return 1 and the key handle carries the variant's own MAC id (the
legacy MAC id, the 2012 MAC id) and a buffer of its own with the 32 key bytes
of the context. The context is unchanged in every case. -/
theorem mac_keygen_cases (X : Ext) (ctx : EVP_PKEY_MAC_CTX) (pkey : EVP_PKEY) :
    ((ctx.data = none ∨ ∃ d, ctx.data = some d ∧ d.key_set = 0) →
      pkey_gost_mac_keygen X ctx pkey
        = ⟨0, pkey, ctx,
            [⟨GostFunc.GOST_F_PKEY_GOST_MAC_KEYGEN, GostReason.GOST_R_MAC_KEY_NOT_SET⟩], []⟩
      ∧ pkey_gost_mac_keygen_12 X ctx pkey
        = ⟨0, pkey, ctx,
            [⟨GostFunc.GOST_F_PKEY_GOST_MAC_KEYGEN, GostReason.GOST_R_MAC_KEY_NOT_SET⟩], []⟩)
    ∧ (∀ d, ctx.data = some d → d.key_set ≠ 0 → X.malloc_ok 32 = false →
      pkey_gost_mac_keygen X ctx pkey = ⟨0, pkey, ctx, [], []⟩
      ∧ pkey_gost_mac_keygen_12 X ctx pkey = ⟨0, pkey, ctx, [], []⟩)
    ∧ (∀ d, ctx.data = some d → d.key_set ≠ 0 → X.malloc_ok 32 = true →
      (X.assign_ok NID_id_Gost28147_89_MAC = true →
        pkey_gost_mac_keygen X ctx pkey
          = ⟨1, ⟨NID_id_Gost28147_89_MAC, some (KeyData.mac d.key)⟩, ctx, [],
              [Call.EVP_PKEY_assign NID_id_Gost28147_89_MAC]⟩)
      ∧ (X.assign_ok NID_gost_mac_12 = true →
        pkey_gost_mac_keygen_12 X ctx pkey
          = ⟨1, ⟨NID_gost_mac_12, some (KeyData.mac d.key)⟩, ctx, [],
              [Call.EVP_PKEY_assign NID_gost_mac_12]⟩)) := by
  refine ⟨?_, ?_, ?_⟩
  · intro h
    rcases h with h | ⟨d, h, hd⟩
    · simp [pkey_gost_mac_keygen, pkey_gost_mac_keygen_12, pkey_gost_mac_keygen_base, h]
    · simp [pkey_gost_mac_keygen, pkey_gost_mac_keygen_12, pkey_gost_mac_keygen_base, h, hd]
  · intro d h hd hm
    simp [pkey_gost_mac_keygen, pkey_gost_mac_keygen_12, pkey_gost_mac_keygen_base, h, hd, hm]
  · intro d h hd hm
    refine ⟨?_, ?_⟩
    · intro ha
      simp [pkey_gost_mac_keygen, pkey_gost_mac_keygen_base, h, hd, hm, EVP_PKEY_assign, ha]
    · intro ha
      simp [pkey_gost_mac_keygen_12, pkey_gost_mac_keygen_base, h, hd, hm, EVP_PKEY_assign, ha]

/-- C20 at a concrete input: in the sample environment the keygen of the 2012
MAC on the handle whose key is 32 bytes of value 5 returns 1 and yields a key
handle tagged with the 2012 MAC id that holds those bytes. -/
theorem mac_keygen_cases_witness :
    pkey_gost_mac_keygen_12 sample_ext sample_mac_ctx_keyed sample_pkey
      = ⟨1, ⟨NID_gost_mac_12, some (KeyData.mac (List.replicate 32 5))⟩,
          sample_mac_ctx_keyed, [], [Call.EVP_PKEY_assign NID_gost_mac_12]⟩ :=
  ((mac_keygen_cases sample_ext sample_mac_ctx_keyed sample_pkey).2.2
      ⟨1, none, List.replicate 32 5⟩ rfl (by decide) rfl).2 rfl

/-- C20 fails as stated: in the sample environment with an allocator that has
no memory left, the MAC keygen on a handle whose key is set returns 0 and hands
back the key handle as it was, without tag and without key bytes; and in the
sample environment with a framework that refuses every tag the key handle is
handed back as it was just the same. -/
theorem mac_keygen_assigns_nothing :
    pkey_gost_mac_keygen sample_ext_no_memory sample_mac_ctx_keyed sample_pkey
      = ⟨0, sample_pkey, sample_mac_ctx_keyed, [], []⟩
    ∧ pkey_gost_mac_keygen_12 sample_ext_no_memory sample_mac_ctx_keyed sample_pkey
      = ⟨0, sample_pkey, sample_mac_ctx_keyed, [], []⟩
    ∧ (pkey_gost_mac_keygen sample_ext_no_tag sample_mac_ctx_keyed sample_pkey).pkey
      = sample_pkey := by
  refine ⟨?_, ?_, ?_⟩ <;> decide

/-- C21: for the MAC digest-init hook on an existing MAC context: when the
key-set flag is not 0 the keyed-mode control of the digest is called once with
the set-key command, the length 32 and the key array of the context, and its
result is returned; when the flag is 0 and a key handle with key data is
attached, it is called in the same way with the key data of that handle; when
the flag is 0 and no key handle is attached, or the attached one carries no key
data, the call returns 0 with MacKeyNotSet and the keyed-mode control is not
called, whatever the blob argument. The MAC context is handed back unchanged in
every case. -/
theorem mac_ctrl_digestinit (X : Ext) (data : gost_mac_pmeth_data) (k : EVP_PKEY)
    (kd : KeyData) (p1 : Int) (p2 : Arg) (mctx : EVP_MD_CTX) :
    (data.key_set ≠ 0 → ∀ key : Option EVP_PKEY,
      pkey_gost_mac_ctrl X ⟨some data, key⟩ EVP_PKEY_CTRL_DIGESTINIT p1 (Arg.md_ctx mctx)
        = some ⟨(X.md_ctrl mctx EVP_MD_CTRL_SET_KEY 32 (KeyData.mac data.key)).1,
            ⟨some data, key⟩, none,
            some (X.md_ctrl mctx EVP_MD_CTRL_SET_KEY 32 (KeyData.mac data.key)).2, [],
            [Call.md_ctrl EVP_MD_CTRL_SET_KEY 32 (KeyData.mac data.key)]⟩)
    ∧ (data.key_set = 0 → k.ptr = some kd →
      pkey_gost_mac_ctrl X ⟨some data, some k⟩ EVP_PKEY_CTRL_DIGESTINIT p1 (Arg.md_ctx mctx)
        = some ⟨(X.md_ctrl mctx EVP_MD_CTRL_SET_KEY 32 kd).1, ⟨some data, some k⟩, none,
            some (X.md_ctrl mctx EVP_MD_CTRL_SET_KEY 32 kd).2, [],
            [Call.md_ctrl EVP_MD_CTRL_SET_KEY 32 kd]⟩)
    ∧ (data.key_set = 0 →
      pkey_gost_mac_ctrl X ⟨some data, none⟩ EVP_PKEY_CTRL_DIGESTINIT p1 p2
        = some ⟨0, ⟨some data, none⟩, none, none,
            [⟨GostFunc.GOST_F_PKEY_GOST_MAC_CTRL, GostReason.GOST_R_MAC_KEY_NOT_SET⟩], []⟩)
    ∧ (data.key_set = 0 → k.ptr = none →
      pkey_gost_mac_ctrl X ⟨some data, some k⟩ EVP_PKEY_CTRL_DIGESTINIT p1 p2
        = some ⟨0, ⟨some data, some k⟩, none, none,
            [⟨GostFunc.GOST_F_PKEY_GOST_MAC_CTRL, GostReason.GOST_R_MAC_KEY_NOT_SET⟩], []⟩)
    ∧ (∀ (key : Option EVP_PKEY) (o : MacCtrlOut),
        pkey_gost_mac_ctrl X ⟨some data, key⟩ EVP_PKEY_CTRL_DIGESTINIT p1 p2 = some o →
        o.ctx = ⟨some data, key⟩) := by
  refine ⟨?_, ?_, ?_, ?_, ?_⟩
  · intro h key
    simp +decide [pkey_gost_mac_ctrl, h]
  · intro h hk
    simp +decide [pkey_gost_mac_ctrl, h, hk]
  · intro h
    simp +decide [pkey_gost_mac_ctrl, h]
  · intro h hk
    simp +decide [pkey_gost_mac_ctrl, h, hk]
  · intro key o ho
    have h7 : ¬ (EVP_PKEY_CTRL_DIGESTINIT = EVP_PKEY_CTRL_MD) := by decide
    have h8 : ¬ (EVP_PKEY_CTRL_DIGESTINIT = EVP_PKEY_CTRL_GET_MD) := by decide
    have h9 : ¬ (EVP_PKEY_CTRL_DIGESTINIT = EVP_PKEY_CTRL_PKCS7_ENCRYPT
        ∨ EVP_PKEY_CTRL_DIGESTINIT = EVP_PKEY_CTRL_PKCS7_DECRYPT
        ∨ EVP_PKEY_CTRL_DIGESTINIT = EVP_PKEY_CTRL_PKCS7_SIGN) := by decide
    have h10 : ¬ (EVP_PKEY_CTRL_DIGESTINIT = EVP_PKEY_CTRL_SET_MAC_KEY) := by decide
    simp only [pkey_gost_mac_ctrl, h7, h8, h9, h10, if_false, if_true] at ho
    split_ifs at ho
    · split at ho
      · simp only [Option.some.injEq] at ho
        rw [← ho]
      · split at ho
        · simp only [Option.some.injEq] at ho
          rw [← ho]
        · split at ho
          · simp only [Option.some.injEq] at ho
            rw [← ho]
          · exact absurd ho (by simp)
    · split at ho
      · simp only [Option.some.injEq] at ho
        rw [← ho]
      · exact absurd ho (by simp)

/-- C21 at concrete inputs in the sample environment, whose keyed-mode control
returns 1: on the handle with a set key the context's own 32 bytes are
injected; on the handle without set key and without attached key the call
returns 0 with MacKeyNotSet and makes no outside call. -/
theorem mac_ctrl_digestinit_witness :
    pkey_gost_mac_ctrl sample_ext sample_mac_ctx_keyed EVP_PKEY_CTRL_DIGESTINIT 0
        (Arg.md_ctx ⟨⟨NID_id_Gost28147_89_MAC, 1⟩, 0⟩)
      = some ⟨1, sample_mac_ctx_keyed, none, some ⟨⟨NID_id_Gost28147_89_MAC, 1⟩, 1⟩, [],
          [Call.md_ctrl EVP_MD_CTRL_SET_KEY 32 (KeyData.mac (List.replicate 32 5))]⟩
    ∧ pkey_gost_mac_ctrl sample_ext sample_mac_ctx EVP_PKEY_CTRL_DIGESTINIT 0
        (Arg.md_ctx ⟨⟨NID_id_Gost28147_89_MAC, 1⟩, 0⟩)
      = some ⟨0, sample_mac_ctx, none, none,
          [⟨GostFunc.GOST_F_PKEY_GOST_MAC_CTRL, GostReason.GOST_R_MAC_KEY_NOT_SET⟩], []⟩ :=
  ⟨(mac_ctrl_digestinit sample_ext ⟨1, none, List.replicate 32 5⟩ sample_pkey (KeyData.mac [])
      0 Arg.null ⟨⟨NID_id_Gost28147_89_MAC, 1⟩, 0⟩).1 (by decide) none,
   (mac_ctrl_digestinit sample_ext ⟨0, none, List.replicate 32 0⟩ sample_pkey (KeyData.mac [])
      0 (Arg.md_ctx ⟨⟨NID_id_Gost28147_89_MAC, 1⟩, 0⟩) ⟨⟨NID_id_Gost28147_89_MAC, 1⟩, 0⟩).2.2.1
      rfl⟩

/-- C24: each of the three asymmetric keygen operations returns what the
corresponding paramgen returns on the same context and key handle, which is 0
or 1: when paramgen returns 0 the keygen makes the outside calls of paramgen
and no call of the key-filling primitive; when paramgen returns 1 the keygen
calls the key-filling primitive once after them and returns 1; and the return
code is the same whatever key-filling primitive the environment has. -/
theorem keygen_returns_paramgen_result (X : Ext) (ctx : EVP_PKEY_CTX) (pkey : EVP_PKEY)
    (f94 : DSA → Int × DSA) (fec : EC_KEY → Int × EC_KEY) :
    (∃ g, pkey_gost94cp_keygen X ctx pkey = some g
      ∧ g.ret = (pkey_gost94_paramgen X ctx pkey).ret ∧ (g.ret = 0 ∨ g.ret = 1)
      ∧ (g.ret = 0 → g.calls = (pkey_gost94_paramgen X ctx pkey).calls
          ∧ Call.gost_sign_keygen ∉ g.calls)
      ∧ (g.ret = 1 →
          g.calls = (pkey_gost94_paramgen X ctx pkey).calls ++ [Call.gost_sign_keygen])
      ∧ (pkey_gost94cp_keygen { X with gost_sign_keygen := f94 } ctx pkey).map GenOut.ret
          = some g.ret)
    ∧ (∃ g, pkey_gost2001cp_keygen X ctx pkey = some g
      ∧ g.ret = (pkey_gost2001_paramgen X ctx pkey).ret ∧ (g.ret = 0 ∨ g.ret = 1)
      ∧ (g.ret = 0 → g.calls = (pkey_gost2001_paramgen X ctx pkey).calls
          ∧ Call.gost_ec_keygen ∉ g.calls)
      ∧ (g.ret = 1 →
          g.calls = (pkey_gost2001_paramgen X ctx pkey).calls ++ [Call.gost_ec_keygen])
      ∧ (pkey_gost2001cp_keygen { X with gost_ec_keygen := fec } ctx pkey).map GenOut.ret
          = some g.ret)
    ∧ (∃ g, pkey_gost2012cp_keygen X ctx pkey = some g
      ∧ g.ret = (pkey_gost2012_paramgen X ctx pkey).ret ∧ (g.ret = 0 ∨ g.ret = 1)
      ∧ (g.ret = 0 → g.calls = (pkey_gost2012_paramgen X ctx pkey).calls
          ∧ Call.gost_ec_keygen ∉ g.calls)
      ∧ (g.ret = 1 →
          g.calls = (pkey_gost2012_paramgen X ctx pkey).calls ++ [Call.gost_ec_keygen])
      ∧ (pkey_gost2012cp_keygen { X with gost_ec_keygen := fec } ctx pkey).map GenOut.ret
          = some g.ret) := by
  rcases ctx with ⟨data, key⟩
  refine ⟨?_, ?_, ?_⟩
  · cases data with
    | none => simp [pkey_gost94cp_keygen, pkey_gost94_paramgen]
    | some d =>
      by_cases hn : d.sign_param_nid = 0
      · simp [pkey_gost94cp_keygen, pkey_gost94_paramgen, hn]
      · cases hf : X.fill_GOST94_params DSA_new d.sign_param_nid with
        | none => simp [pkey_gost94cp_keygen, pkey_gost94_paramgen, hn, hf]
        | some dsa =>
          by_cases ha : X.assign_ok NID_id_GostR3410_94 = true
          · simp [pkey_gost94cp_keygen, pkey_gost94_paramgen, hn, hf, ha, EVP_PKEY_assign]
          · simp [pkey_gost94cp_keygen, pkey_gost94_paramgen, hn, hf, ha, EVP_PKEY_assign]
  · cases data with
    | none => simp [pkey_gost2001cp_keygen, pkey_gost2001_paramgen]
    | some d =>
      by_cases hn : d.sign_param_nid = 0
      · simp [pkey_gost2001cp_keygen, pkey_gost2001_paramgen, hn]
      · cases hf : X.fill_GOST_EC_params EC_KEY_new d.sign_param_nid with
        | none => simp [pkey_gost2001cp_keygen, pkey_gost2001_paramgen, hn, hf]
        | some ec =>
          by_cases ha : X.assign_ok NID_id_GostR3410_2001 = true
          · simp [pkey_gost2001cp_keygen, pkey_gost2001_paramgen, hn, hf, ha, EVP_PKEY_assign]
          · simp [pkey_gost2001cp_keygen, pkey_gost2001_paramgen, hn, hf, ha, EVP_PKEY_assign]
  · cases data with
    | none => simp [pkey_gost2012cp_keygen, pkey_gost2012_paramgen]
    | some d =>
      by_cases hn : d.sign_param_nid = 0
      · simp [pkey_gost2012cp_keygen, pkey_gost2012_paramgen, hn]
      · cases hf : X.fill_GOST_EC_params EC_KEY_new d.sign_param_nid with
        | none => simp [pkey_gost2012cp_keygen, pkey_gost2012_paramgen, hn, hf]
        | some ec =>
          by_cases h512 : d.sign_param_nid = NID_id_tc26_gost_3410_2012_512_paramSetA
              ∨ d.sign_param_nid = NID_id_tc26_gost_3410_2012_512_paramSetB
          · by_cases ha : X.assign_ok NID_id_GostR3410_2012_512 = true
            · simp [pkey_gost2012cp_keygen, pkey_gost2012_paramgen, hn, hf, h512, ha,
                EVP_PKEY_assign]
            · simp [pkey_gost2012cp_keygen, pkey_gost2012_paramgen, hn, hf, h512, ha,
                EVP_PKEY_assign]
          · by_cases h256 : d.sign_param_nid = NID_id_GostR3410_2001_CryptoPro_A_ParamSet
                ∨ d.sign_param_nid = NID_id_GostR3410_2001_CryptoPro_B_ParamSet
                ∨ d.sign_param_nid = NID_id_GostR3410_2001_CryptoPro_C_ParamSet
                ∨ d.sign_param_nid = NID_id_GostR3410_2001_CryptoPro_XchA_ParamSet
                ∨ d.sign_param_nid = NID_id_GostR3410_2001_CryptoPro_XchB_ParamSet
                ∨ d.sign_param_nid = NID_id_GostR3410_2001_TestParamSet
            · by_cases ha : X.assign_ok NID_id_GostR3410_2012_256 = true
              · simp [pkey_gost2012cp_keygen, pkey_gost2012_paramgen, hn, hf, h512, h256, ha,
                  EVP_PKEY_assign]
              · simp [pkey_gost2012cp_keygen, pkey_gost2012_paramgen, hn, hf, h512, h256, ha,
                  EVP_PKEY_assign]
            · simp [pkey_gost2012cp_keygen, pkey_gost2012_paramgen, hn, hf, h512, h256]

/-- C23: in `pkey_gost2012_paramgen` on a context with state, once
materialization has succeeded, the tag handed to `EVP_PKEY_assign` depends on
the parameter-set id alone: 2012-512 for the 512-bit sets A and B, 2012-256 for
the six 2001 ids (CryptoPro A, B, C, exchange A, B, test), and for every other
id the call returns 0 without assignment and hands back the key handle as it
was. The call returns 1 exactly when materialization succeeded, the id is one
of those eight and the assignment succeeded. Both 2012 families are registered
with this one function. -/
theorem gost2012_paramgen_tag (X : Ext) (pctx : gost_pmeth_data) (key : Option EVP_PKEY)
    (pkey : EVP_PKEY) (ec : EC_KEY) (flags : Int) :
    (X.fill_GOST_EC_params EC_KEY_new pctx.sign_param_nid = some ec →
      (pctx.sign_param_nid = NID_id_tc26_gost_3410_2012_512_paramSetA
          ∨ pctx.sign_param_nid = NID_id_tc26_gost_3410_2012_512_paramSetB →
        pkey_gost2012_paramgen X ⟨some pctx, key⟩ pkey
          = ⟨if X.assign_ok NID_id_GostR3410_2012_512 = true then 1 else 0,
              if X.assign_ok NID_id_GostR3410_2012_512 = true
                then ⟨NID_id_GostR3410_2012_512, some (KeyData.ec ec)⟩ else pkey,
              [], [Call.fill_GOST_EC_params pctx.sign_param_nid,
                   Call.EVP_PKEY_assign NID_id_GostR3410_2012_512]⟩)
      ∧ (pctx.sign_param_nid = NID_id_GostR3410_2001_CryptoPro_A_ParamSet
          ∨ pctx.sign_param_nid = NID_id_GostR3410_2001_CryptoPro_B_ParamSet
          ∨ pctx.sign_param_nid = NID_id_GostR3410_2001_CryptoPro_C_ParamSet
          ∨ pctx.sign_param_nid = NID_id_GostR3410_2001_CryptoPro_XchA_ParamSet
          ∨ pctx.sign_param_nid = NID_id_GostR3410_2001_CryptoPro_XchB_ParamSet
          ∨ pctx.sign_param_nid = NID_id_GostR3410_2001_TestParamSet →
        pkey_gost2012_paramgen X ⟨some pctx, key⟩ pkey
          = ⟨if X.assign_ok NID_id_GostR3410_2012_256 = true then 1 else 0,
              if X.assign_ok NID_id_GostR3410_2012_256 = true
                then ⟨NID_id_GostR3410_2012_256, some (KeyData.ec ec)⟩ else pkey,
              [], [Call.fill_GOST_EC_params pctx.sign_param_nid,
                   Call.EVP_PKEY_assign NID_id_GostR3410_2012_256]⟩)
      ∧ (pctx.sign_param_nid ∉ [NID_undef, NID_id_tc26_gost_3410_2012_512_paramSetA,
            NID_id_tc26_gost_3410_2012_512_paramSetB,
            NID_id_GostR3410_2001_CryptoPro_A_ParamSet,
            NID_id_GostR3410_2001_CryptoPro_B_ParamSet,
            NID_id_GostR3410_2001_CryptoPro_C_ParamSet,
            NID_id_GostR3410_2001_CryptoPro_XchA_ParamSet,
            NID_id_GostR3410_2001_CryptoPro_XchB_ParamSet,
            NID_id_GostR3410_2001_TestParamSet] →
        pkey_gost2012_paramgen X ⟨some pctx, key⟩ pkey
          = ⟨0, pkey, [], [Call.fill_GOST_EC_params pctx.sign_param_nid]⟩))
    ∧ ((pkey_gost2012_paramgen X ⟨some pctx, key⟩ pkey).ret = 1 ↔
        (∃ e, X.fill_GOST_EC_params EC_KEY_new pctx.sign_param_nid = some e)
        ∧ (((pctx.sign_param_nid = NID_id_tc26_gost_3410_2012_512_paramSetA
              ∨ pctx.sign_param_nid = NID_id_tc26_gost_3410_2012_512_paramSetB)
            ∧ X.assign_ok NID_id_GostR3410_2012_512 = true)
          ∨ ((pctx.sign_param_nid = NID_id_GostR3410_2001_CryptoPro_A_ParamSet
              ∨ pctx.sign_param_nid = NID_id_GostR3410_2001_CryptoPro_B_ParamSet
              ∨ pctx.sign_param_nid = NID_id_GostR3410_2001_CryptoPro_C_ParamSet
              ∨ pctx.sign_param_nid = NID_id_GostR3410_2001_CryptoPro_XchA_ParamSet
              ∨ pctx.sign_param_nid = NID_id_GostR3410_2001_CryptoPro_XchB_ParamSet
              ∨ pctx.sign_param_nid = NID_id_GostR3410_2001_TestParamSet)
            ∧ X.assign_ok NID_id_GostR3410_2012_256 = true)))
    ∧ (X.meth_new_ok = true →
        ((register_pmeth_gost X NID_id_GostR3410_2012_256 flags).2.bind
            EVP_PKEY_METHOD.paramgen) = some Fn.pkey_gost2012_paramgen
        ∧ ((register_pmeth_gost X NID_id_GostR3410_2012_512 flags).2.bind
            EVP_PKEY_METHOD.paramgen) = some Fn.pkey_gost2012_paramgen) := by
  have not512 : pctx.sign_param_nid = NID_id_GostR3410_2001_CryptoPro_A_ParamSet
      ∨ pctx.sign_param_nid = NID_id_GostR3410_2001_CryptoPro_B_ParamSet
      ∨ pctx.sign_param_nid = NID_id_GostR3410_2001_CryptoPro_C_ParamSet
      ∨ pctx.sign_param_nid = NID_id_GostR3410_2001_CryptoPro_XchA_ParamSet
      ∨ pctx.sign_param_nid = NID_id_GostR3410_2001_CryptoPro_XchB_ParamSet
      ∨ pctx.sign_param_nid = NID_id_GostR3410_2001_TestParamSet →
      ¬ (pctx.sign_param_nid = 998 ∨ pctx.sign_param_nid = 999) ∧ ¬ pctx.sign_param_nid = 0 := by
    intro hp
    rcases hp with h | h | h | h | h | h <;> rw [h] <;> decide
  have is512 : pctx.sign_param_nid = NID_id_tc26_gost_3410_2012_512_paramSetA
      ∨ pctx.sign_param_nid = NID_id_tc26_gost_3410_2012_512_paramSetB →
      ¬ pctx.sign_param_nid = 0 := by
    intro hp
    rcases hp with h | h <;> rw [h] <;> decide
  refine ⟨?_, ?_, ?_⟩
  · intro hfill
    refine ⟨?_, ?_, ?_⟩
    · intro hp
      have hne := is512 hp
      by_cases ha : X.assign_ok NID_id_GostR3410_2012_512 = true
      · simp [pkey_gost2012_paramgen, hne, hfill, hp, EVP_PKEY_assign, ha]
      · simp [pkey_gost2012_paramgen, hne, hfill, hp, EVP_PKEY_assign, ha]
    · intro hp
      obtain ⟨h512, hne⟩ := not512 hp
      by_cases ha : X.assign_ok NID_id_GostR3410_2012_256 = true
      · simp [pkey_gost2012_paramgen, hne, hfill, hp, h512, EVP_PKEY_assign, ha]
      · simp [pkey_gost2012_paramgen, hne, hfill, hp, h512, EVP_PKEY_assign, ha]
    · intro hp
      simp only [List.mem_cons, List.mem_singleton, List.not_mem_nil, or_false, not_or] at hp
      obtain ⟨h0, h1, h2, h3, h4, h5, h6, h7, h8⟩ := hp
      simp [pkey_gost2012_paramgen, h0, h1, h2, h3, h4, h5, h6, h7, h8, hfill]
  · by_cases hn : pctx.sign_param_nid = 0
    · simp +decide [pkey_gost2012_paramgen, hn]
    · cases hf : X.fill_GOST_EC_params EC_KEY_new pctx.sign_param_nid with
      | none => simp [pkey_gost2012_paramgen, hn, hf]
      | some e =>
        by_cases h512 : pctx.sign_param_nid = NID_id_tc26_gost_3410_2012_512_paramSetA
            ∨ pctx.sign_param_nid = NID_id_tc26_gost_3410_2012_512_paramSetB
        · have h256 : ¬ (pctx.sign_param_nid = NID_id_GostR3410_2001_CryptoPro_A_ParamSet
              ∨ pctx.sign_param_nid = NID_id_GostR3410_2001_CryptoPro_B_ParamSet
              ∨ pctx.sign_param_nid = NID_id_GostR3410_2001_CryptoPro_C_ParamSet
              ∨ pctx.sign_param_nid = NID_id_GostR3410_2001_CryptoPro_XchA_ParamSet
              ∨ pctx.sign_param_nid = NID_id_GostR3410_2001_CryptoPro_XchB_ParamSet
              ∨ pctx.sign_param_nid = NID_id_GostR3410_2001_TestParamSet) :=
            fun h => (not512 h).1 h512
          by_cases ha : X.assign_ok NID_id_GostR3410_2012_512 = true
          · simp [pkey_gost2012_paramgen, hn, hf, h512, EVP_PKEY_assign, ha]
          · simp [pkey_gost2012_paramgen, hn, hf, h512, h256, EVP_PKEY_assign, ha]
        · by_cases h256 : pctx.sign_param_nid = NID_id_GostR3410_2001_CryptoPro_A_ParamSet
              ∨ pctx.sign_param_nid = NID_id_GostR3410_2001_CryptoPro_B_ParamSet
              ∨ pctx.sign_param_nid = NID_id_GostR3410_2001_CryptoPro_C_ParamSet
              ∨ pctx.sign_param_nid = NID_id_GostR3410_2001_CryptoPro_XchA_ParamSet
              ∨ pctx.sign_param_nid = NID_id_GostR3410_2001_CryptoPro_XchB_ParamSet
              ∨ pctx.sign_param_nid = NID_id_GostR3410_2001_TestParamSet
          · by_cases ha : X.assign_ok NID_id_GostR3410_2012_256 = true
            · simp [pkey_gost2012_paramgen, hn, hf, h512, h256, EVP_PKEY_assign, ha]
            · simp [pkey_gost2012_paramgen, hn, hf, h512, h256, EVP_PKEY_assign, ha]
          · simp [pkey_gost2012_paramgen, hn, hf, h512, h256]
  · intro hnew
    simp +decide [register_pmeth_gost, register_common, hnew]

/-- C23 at concrete inputs in the sample environment: under one and the same
function the 512-bit parameter set A gives a key tagged 2012-512 and the 2001
test parameter set a key tagged 2012-256. -/
theorem gost2012_paramgen_tag_witness :
    pkey_gost2012_paramgen sample_ext
        (sample_ctx_with NID_id_tc26_gost_3410_2012_512_paramSetA) sample_pkey
      = ⟨1, ⟨NID_id_GostR3410_2012_512, some (KeyData.ec ⟨some ⟨998⟩, none⟩)⟩, [],
          [Call.fill_GOST_EC_params 998, Call.EVP_PKEY_assign NID_id_GostR3410_2012_512]⟩
    ∧ pkey_gost2012_paramgen sample_ext
        (sample_ctx_with NID_id_GostR3410_2001_TestParamSet) sample_pkey
      = ⟨1, ⟨NID_id_GostR3410_2012_256, some (KeyData.ec ⟨some ⟨839⟩, none⟩)⟩, [],
          [Call.fill_GOST_EC_params 839, Call.EVP_PKEY_assign NID_id_GostR3410_2012_256]⟩ :=
  ⟨(((gost2012_paramgen_tag sample_ext ⟨998, none, none, 0⟩ none sample_pkey
        ⟨some ⟨998⟩, none⟩ 0).1 rfl).1 (Or.inl rfl)).trans (by decide),
   (((gost2012_paramgen_tag sample_ext ⟨839, none, none, 0⟩ none sample_pkey
        ⟨some ⟨839⟩, none⟩ 0).1 rfl).2.1
        (Or.inr (Or.inr (Or.inr (Or.inr (Or.inr rfl)))))).trans (by decide)⟩

/-- C25: when the peer-key flag of a context is 1, it is 1 after every step of
every finite sequence of numeric controls and parameter-set string controls
carried out on the context, whatever their arguments, environments and
results; and a single request changes the flag of a context with state only if
it is the numeric peer-key control with sub-request 3, which leaves it 1. -/
theorem peer_key_flag_never_reset (ctx : EVP_PKEY_CTX) (steps : List (Ext × Request))
    (h : ∃ d, ctx.data = some d ∧ d.peer_key_used = 1) :
    (∀ c ∈ run_requests ctx steps, ∃ d, c.data = some d ∧ d.peer_key_used = 1)
    ∧ (∀ (X : Ext) (pctx : gost_pmeth_data) (key : Option EVP_PKEY) (r : Request)
        (o : CtrlOut), apply_request X ⟨some pctx, key⟩ r = some o →
        ∃ d, o.ctx.data = some d
          ∧ (d.peer_key_used ≠ pctx.peer_key_used →
              (∃ p2, r = Request.ctrl EVP_PKEY_CTRL_PEER_KEY 3 p2) ∧ d.peer_key_used = 1)) := by
  have step : ∀ (X : Ext) (pctx : gost_pmeth_data) (key : Option EVP_PKEY) (r : Request)
      (o : CtrlOut), apply_request X ⟨some pctx, key⟩ r = some o →
      ∃ d, o.ctx.data = some d
        ∧ (d.peer_key_used = pctx.peer_key_used
          ∨ ((∃ p2, r = Request.ctrl EVP_PKEY_CTRL_PEER_KEY 3 p2) ∧ d.peer_key_used = 1)) := by
    intro X pctx key r o ho
    cases r with
    | ctrl type p1 p2 =>
      obtain ⟨d, hd, hf⟩ := pkey_gost_ctrl_flag X pctx key type p1 p2 o ho
      refine ⟨d, hd, ?_⟩
      rcases hf with hf | ⟨ht, hp, hf⟩
      · exact Or.inl hf
      · subst ht
        subst hp
        exact Or.inr ⟨⟨p2, rfl⟩, hf⟩
    | ctrl_str_94 type value =>
      obtain ⟨n, hn⟩ := ctrl_str_keeps_flag X pctx key type value o (Or.inl ho)
      exact ⟨⟨n, pctx.md, pctx.shared_ukm, pctx.peer_key_used⟩, by rw [hn], Or.inl rfl⟩
    | ctrl_str_256 type value =>
      obtain ⟨n, hn⟩ := ctrl_str_keeps_flag X pctx key type value o (Or.inr (Or.inl ho))
      exact ⟨⟨n, pctx.md, pctx.shared_ukm, pctx.peer_key_used⟩, by rw [hn], Or.inl rfl⟩
    | ctrl_str_512 type value =>
      obtain ⟨n, hn⟩ := ctrl_str_keeps_flag X pctx key type value o (Or.inr (Or.inr ho))
      exact ⟨⟨n, pctx.md, pctx.shared_ukm, pctx.peer_key_used⟩, by rw [hn], Or.inl rfl⟩
  refine ⟨?_, ?_⟩
  · induction steps generalizing ctx with
    | nil =>
      intro c hc
      simp [run_requests] at hc
    | cons s rest ih =>
      intro c hc
      obtain ⟨d, hd, hflag⟩ := h
      rcases ctx with ⟨data, key⟩
      simp only at hd
      subst hd
      unfold run_requests at hc
      cases ho : apply_request s.1 ⟨some d, key⟩ s.2 with
      | none => simp [ho] at hc
      | some o =>
        simp only [ho, List.mem_cons] at hc
        obtain ⟨d2, hd2, hf2⟩ := step s.1 d key s.2 o ho
        have hnext : ∃ d, o.ctx.data = some d ∧ d.peer_key_used = 1 := by
          refine ⟨d2, hd2, ?_⟩
          rcases hf2 with hf2 | ⟨_, hf2⟩
          · rw [hf2, hflag]
          · exact hf2
        rcases hc with hc | hc
        · rw [hc]
          exact hnext
        · exact ih o.ctx hnext c hc
  · intro X pctx key r o ho
    obtain ⟨d, hd, hf⟩ := step X pctx key r o ho
    refine ⟨d, hd, ?_⟩
    intro hne
    rcases hf with hf | hf
    · exact absurd hf hne
    · exact hf

/-- C22: for every half-width `w` (32 and 64 among them), every pair (r, s) of
unsigned integers below 2^(8w) and every buffer of at least 2w bytes, the
packer returns 1 and writes 2w bytes, each below 256: the w big-endian bytes of
s, zero-padded, followed by those of r; the unpacker of half-width w, given
these bytes and their length, returns the pair (r, s); and the unpacker fails
for every byte length other than 2w. -/
theorem pack_unpack_roundtrip (w r s cap : Nat) (hr : r < 2 ^ (8 * w))
    (hs : s < 2 ^ (8 * w)) (hcap : 2 * w ≤ cap) :
    pack_cp ⟨r, s⟩ w cap = ⟨1, 2 * w, store_be w s ++ store_be w r⟩
    ∧ (pack_cp ⟨r, s⟩ w cap).sig.length = 2 * w
    ∧ (∀ b ∈ (pack_cp ⟨r, s⟩ w cap).sig, b < 256)
    ∧ load_be ((pack_cp ⟨r, s⟩ w cap).sig.take w) = s
    ∧ load_be (((pack_cp ⟨r, s⟩ w cap).sig.drop w).take w) = r
    ∧ unpack_cp w (pack_cp ⟨r, s⟩ w cap).sig (pack_cp ⟨r, s⟩ w cap).siglen = some ⟨r, s⟩
    ∧ (∀ (sig : List Nat) (n : Nat), n ≠ 2 * w → unpack_cp w sig n = none) := by
  have hpow : 2 ^ (8 * w) = 256 ^ w := by
    rw [pow_mul]
    norm_num
  rw [hpow] at hr hs
  have hpack : pack_cp ⟨r, s⟩ w cap = ⟨1, 2 * w, store_be w s ++ store_be w r⟩ := by
    have hnot : ¬ cap < 2 * w := by omega
    simp [pack_cp, hnot]
  have htake : (store_be w s ++ store_be w r).take w = store_be w s :=
    List.take_left' (store_be_length w s)
  have hdrop : ((store_be w s ++ store_be w r).drop w).take w = store_be w r := by
    rw [List.drop_left' (store_be_length w s)]
    exact List.take_of_length_le (by rw [store_be_length])
  refine ⟨hpack, ?_, ?_, ?_, ?_, ?_, ?_⟩
  · rw [hpack]
    simp only [List.length_append, store_be_length]
    omega
  · rw [hpack]
    intro b hb
    simp only [List.mem_append] at hb
    rcases hb with hb | hb
    · exact store_be_lt w s b hb
    · exact store_be_lt w r b hb
  · rw [hpack]
    simp only [htake]
    exact load_be_store_be w s hs
  · rw [hpack]
    simp only [hdrop]
    exact load_be_store_be w r hr
  · rw [hpack]
    simp only [unpack_cp, if_true, htake, hdrop, load_be_store_be w s hs,
      load_be_store_be w r hr]
  · intro sig n hn
    simp [unpack_cp, hn]

/-- C22 at a concrete input: with half-width 32 the pair (258, 3) is packed
into 64 bytes, 31 zero bytes and the byte 3, then 30 zero bytes and the bytes
1 and 2, and unpacked again. -/
theorem pack_unpack_roundtrip_witness :
    pack_cp ⟨258, 3⟩ 32 64
      = ⟨1, 64, List.replicate 31 0 ++ [3] ++ List.replicate 30 0 ++ [1, 2]⟩
    ∧ unpack_cp 32 (pack_cp ⟨258, 3⟩ 32 64).sig (pack_cp ⟨258, 3⟩ 32 64).siglen
      = some ⟨258, 3⟩ :=
  ⟨(pack_unpack_roundtrip 32 258 3 64 (by norm_num) (by norm_num) (by norm_num)).1.trans
      (by decide),
   (pack_unpack_roundtrip 32 258 3 64 (by norm_num) (by norm_num) (by norm_num)).2.2.2.2.2.1⟩

/-- C25 at a concrete input: a sequence of seven requests on a context whose
flag is 1 runs to its end, and the flag is 1 after each of them. -/
theorem peer_key_flag_never_reset_witness :
    (run_requests sample_ctx_used sample_steps).length = 7
    ∧ (∀ c ∈ run_requests sample_ctx_used sample_steps,
        ∃ d, c.data = some d ∧ d.peer_key_used = 1) :=
  ⟨by decide,
   (peer_key_flag_never_reset sample_ctx_used sample_steps ⟨⟨0, none, none, 1⟩, rfl, rfl⟩).1⟩

end GostPmeth
